import Mathlib

/-!
# Remote compilation dispatch (`runtime/compiler/trj9/runtime/CompileService.cpp`)

A shallow embedding of the three functions of `CompileService.cpp`:

* `ramMethodFromRomMethod`   (lines 7-33),
* `doAOTCompile`             (lines 35-149),
* `J9CompileDispatcher::compile` (lines 151-174).

The collaborators reached through `jitConfig` (shared cache, relocation runtime,
compilation strategy, compilation engine) are oracles: fields of `J9JITConfig`.
Every call with an effect the dispatch contract speaks about is recorded, in
program order, in a list of `Call`s, together with the values it returned.
Verbose logging (`TR_VerboseLog::writeLineLocked`) has no effect on control
flow and is left out. Collaborator calls return normally; the only call
modelled as raising `StreamFailure` is `stream->read`.

`doAOTCompile` and `compile` describe the runs in which the reads through
`romMethod` and `romClass` (lines 40-45) succeed. `doAOTCompileOrFault` and
`compileOrFault` add the address space: where one of the two addresses cannot
be read, the run stops at that read with an access fault.
-/

namespace CompileService

/-- A raw address. Pointers the source tests against `NULL` are `Option Ptr`
(`none` is `NULL`); pointers it never tests are plain `Ptr`, among which the
address `0` is the null pointer. -/
abbrev Ptr := Nat

/-- The client's requested optimisation level (`TR_Hotness`), carried through
unchanged; only its identity matters here. -/
abbrev TR_Hotness := Nat

/-- Modelled from the spec: the enum `TR_CompilationErrorCode` is declared in a
header outside the sources at hand. The three enumerators named in
`CompileService.cpp` are kept; every other enumerator is `other raw`. -/
inductive TR_CompilationErrorCode where
  | compilationFailure
  | compilationNotNeeded
  | compilationInProgress
  | other (raw : Nat)
  deriving DecidableEq, Repr

/-- Modelled from the spec: the class `TR_OptimizationPlan` is declared outside
the sources at hand. `self` is the address of the plan object, the two
code-buffer fields are the ones `doAOTCompile` writes (lines 97-98), and
`contents` stands for every other field of the plan. -/
structure TR_OptimizationPlan where
  self : Ptr
  _mandatoryCodeAddress : Option Ptr
  _availableCodeSpace : Nat
  contents : Nat
  deriving DecidableEq, Repr

/-- The kind of a `TR_MethodEvent`; `doAOTCompile` only ever builds
`RemoteCompilationRequest` (line 81). -/
inductive TR_MethodEventType where
  | RemoteCompilationRequest
  | otherEventType (raw : Nat)
  deriving DecidableEq, Repr

/-- The event handed to the compilation strategy, with the six fields
`doAOTCompile` fills in (lines 81-86). -/
structure TR_MethodEvent where
  _eventType : TR_MethodEventType
  _j9method : Ptr
  _oldStartPC : Nat
  _vmThread : Ptr
  _classNeedingThunk : Nat
  _jaasClientOptLevel : TR_Hotness
  deriving DecidableEq, Repr

/-- The `J9::RemoteMethodDetails details(ramMethod, romClass, romMethod)` of
line 100. -/
structure RemoteMethodDetails where
  ramMethod : Ptr
  romClass : Ptr
  romMethod : Ptr
  deriving DecidableEq, Repr

/-- What one call of `compileRemoteMethod` does to its results: the returned
start address, and the values it stores through `&compErrCode` and `&queued`
(`none` when it leaves the caller's variable untouched). -/
structure CompileReply where
  result : Int
  compErrCode : Option TR_CompilationErrorCode
  queued : Option Bool
  deriving DecidableEq, Repr

/-- The collaborators reached from `jitConfig`, as oracles. -/
structure J9JITConfig where
  /-- The call `cache->pointerFromOffsetInSharedCache(offset)`. -/
  pointerFromOffsetInSharedCache : Nat → Ptr
  /-- The call `lookupClassLoaderAssociatedWithClassChain(classChainCL)`. -/
  lookupClassLoaderAssociatedWithClassChain : Ptr → Option Ptr
  /-- The call `cache->lookupClassFromChainAndLoader(classChainC, CL)`. -/
  lookupClassFromChainAndLoader : Ptr → Ptr → Option Ptr
  /-- The field read `ramClass->ramMethods`: the base of the method table. -/
  ramMethods : Ptr → Ptr
  /-- The field read `romClass->romMethodCount`. -/
  romMethodCount : Ptr → Nat
  /-- The descriptor read `J9_ROM_METHOD_FROM_RAM_METHOD(curMethod)`. -/
  J9_ROM_METHOD_FROM_RAM_METHOD : Ptr → Ptr
  /-- The call `reloRuntime()->isROMClassInSharedCaches((UDATA)romClass, javaVM)`. -/
  isROMClassInSharedCaches : Ptr → Bool
  /-- The call `sharedClassConfig->existsCachedCodeForROMMethod(vmThread, romMethod)`. -/
  existsCachedCodeForROMMethod : Ptr → Ptr → Bool
  /-- The call `getCompilationStrategy()->processEvent(&event, &newPlanCreated)`:
  the returned plan (`none` is `NULL`) and the value stored in `newPlanCreated`. -/
  processEvent : TR_MethodEvent → Option TR_OptimizationPlan × Bool
  /-- The call `compInfo->compileRemoteMethod(vmThread, details, romMethod,
  romClass, oldStartPC, &compErrCode, &queued, plan, rpc)`. -/
  compileRemoteMethod :
    Ptr → RemoteMethodDetails → Ptr → Ptr → Nat → TR_OptimizationPlan → CompileReply

/-- One recorded call, with the values it returned where the source uses them. -/
inductive Call where
  /-- `stream->read<...>()` (line 155). -/
  | streamRead
  /-- `stream->cancel()` (line 172). -/
  | cancel
  /-- `cache->pointerFromOffsetInSharedCache(offset)` (lines 160-161). -/
  | pointerFromOffsetInSharedCache (offset : Nat)
  /-- The read through `romMethod` of line 40 (`&romMethod->nameAndSignature`). -/
  | readMethodName (romMethod : Ptr)
  /-- The read through `romClass` of line 43 (`J9ROMCLASS_CLASSNAME(romClass)`). -/
  | readClassName (romClass : Ptr)
  /-- Construction of the `VMAccessHolder` (line 48). -/
  | acquireVMAccess
  /-- Destruction of the `VMAccessHolder` at the end of `doAOTCompile`. -/
  | releaseVMAccess
  /-- The class-presence check of line 57 and its answer. -/
  | isROMClassInSharedCaches (romClass : Ptr) (answer : Bool)
  /-- The cached-code check of line 66 and its answer. -/
  | existsCachedCodeForROMMethod (romMethod : Ptr) (answer : Bool)
  /-- The strategy call of line 89 and what it returned. -/
  | processEvent (event : TR_MethodEvent) (plan : Option TR_OptimizationPlan)
      (newPlanCreated : Bool)
  /-- The submission of line 101: the details and plan handed over, and the
  values of `queued` and `compErrCode` after the call. -/
  | compileRemoteMethod (details : RemoteMethodDetails) (plan : TR_OptimizationPlan)
      (queued : Bool) (compErrCode : TR_CompilationErrorCode)
  /-- `TR_OptimizationPlan::freeOptimizationPlan(plan)` (line 106). -/
  | freeOptimizationPlan (plan : TR_OptimizationPlan)
  /-- `rpc->finishCompilation(code)` (lines 62, 71, 118, 129, 137, 145). -/
  | finishCompilation (code : TR_CompilationErrorCode)
  deriving DecidableEq, Repr

/-! ## `ramMethodFromRomMethod` -/

/-- The `for` loop of lines 23-29 from index `i` on, with `remaining` iterations
left (`remaining = romMethodCount - i`): `curMethod = ramMethods + i`, compared
through `J9_ROM_METHOD_FROM_RAM_METHOD`; `none` when the loop runs out. Method
counts are far below `2^31`, so the `int32_t` counter never wraps. -/
def scanRamMethods (jitConfig : J9JITConfig) (ramMethods romMethod : Ptr) :
    Nat → Nat → Option Ptr
  | _, 0 => none
  | i, remaining + 1 =>
    let curMethod := ramMethods + i
    let curROMMethod := jitConfig.J9_ROM_METHOD_FROM_RAM_METHOD curMethod
    if curROMMethod = romMethod then some curMethod
    else scanRamMethods jitConfig ramMethods romMethod (i + 1) remaining

/-- Lines 7-33. `none` is the `return NULL` of line 32. -/
def ramMethodFromRomMethod (jitConfig : J9JITConfig) (romClass romMethod : Ptr)
    (classChainC classChainCL : Ptr) : Option Ptr :=
  match jitConfig.lookupClassLoaderAssociatedWithClassChain classChainCL with
  | none => none
  | some CL =>
    match jitConfig.lookupClassFromChainAndLoader classChainC CL with
    | none => none
    | some ramClass =>
      scanRamMethods jitConfig (jitConfig.ramMethods ramClass) romMethod 0
        (jitConfig.romMethodCount romClass)

/-! ## `doAOTCompile` -/

/-- Lines 92-99: the plan after the code-buffer hint has been applied. -/
def applyCodeBufferHint (plan : TR_OptimizationPlan) (mandatoryCodeAddress : Option Ptr)
    (availableCodeSpace : Nat) : TR_OptimizationPlan :=
  match mandatoryCodeAddress with
  | some address =>
    { plan with _mandatoryCodeAddress := some address,
                _availableCodeSpace := availableCodeSpace }
  | none => plan

/-- Lines 103-130: what the dispatcher does once `compileRemoteMethod` has
returned. -/
def afterSubmission (plan : TR_OptimizationPlan) (newPlanCreated queued : Bool)
    (compErrCode : TR_CompilationErrorCode) : List Call :=
  if newPlanCreated then
    (if !queued then [Call.freeOptimizationPlan plan] else []) ++
    (if compErrCode = TR_CompilationErrorCode.compilationInProgress then []
     else [Call.finishCompilation compErrCode])
  else
    [Call.finishCompilation TR_CompilationErrorCode.compilationFailure]

/-- The event `doAOTCompile` builds for the strategy (lines 80-86). -/
def remoteRequestEvent (vmThread ramMethod : Ptr) (optLevel : TR_Hotness) : TR_MethodEvent :=
  { _eventType := TR_MethodEventType.RemoteCompilationRequest,
    _j9method := ramMethod,
    _oldStartPC := 0,
    _vmThread := vmThread,
    _classNeedingThunk := 0,
    _jaasClientOptLevel := optLevel }

/-- Lines 78-79 and 100-101: `queued` starts `false`, `compErrCode` starts
`compilationFailure`, and `compileRemoteMethod` may overwrite either; the pair
is their value after the call. -/
def submitPlan (jitConfig : J9JITConfig) (vmThread romClass romMethod ramMethod : Ptr)
    (plan : TR_OptimizationPlan) : Bool × TR_CompilationErrorCode :=
  let details : RemoteMethodDetails := ⟨ramMethod, romClass, romMethod⟩
  let reply := jitConfig.compileRemoteMethod vmThread details romMethod romClass 0 plan
  (reply.queued.getD false, reply.compErrCode.getD TR_CompilationErrorCode.compilationFailure)

/-- Lines 77-138: the branch taken when `ramMethod` is not `NULL`. -/
def compileWithRamMethod (jitConfig : J9JITConfig) (vmThread romClass romMethod ramMethod : Ptr)
    (optLevel : TR_Hotness) (mandatoryCodeAddress : Option Ptr) (availableCodeSpace : Nat) :
    List Call :=
  let event := remoteRequestEvent vmThread ramMethod optLevel
  let answer := jitConfig.processEvent event
  Call.processEvent event answer.1 answer.2 ::
    match answer.1 with
    | some plan0 =>
      let plan := applyCodeBufferHint plan0 mandatoryCodeAddress availableCodeSpace
      let after := submitPlan jitConfig vmThread romClass romMethod ramMethod plan
      Call.compileRemoteMethod ⟨ramMethod, romClass, romMethod⟩ plan after.1 after.2 ::
        afterSubmission plan answer.2 after.1 after.2
    | none => [Call.finishCompilation TR_CompilationErrorCode.compilationFailure]

/-- Lines 56-148: the admission checks and what follows them. -/
def admitAndCompile (jitConfig : J9JITConfig) (vmThread romClass romMethod : Ptr)
    (ramMethod : Option Ptr) (optLevel : TR_Hotness) (mandatoryCodeAddress : Option Ptr)
    (availableCodeSpace : Nat) : List Call :=
  if !(jitConfig.isROMClassInSharedCaches romClass) then
    [Call.isROMClassInSharedCaches romClass false,
     Call.finishCompilation TR_CompilationErrorCode.compilationFailure]
  else
    Call.isROMClassInSharedCaches romClass true ::
      if jitConfig.existsCachedCodeForROMMethod vmThread romMethod then
        [Call.existsCachedCodeForROMMethod romMethod true,
         Call.finishCompilation TR_CompilationErrorCode.compilationNotNeeded]
      else
        Call.existsCachedCodeForROMMethod romMethod false ::
          match ramMethod with
          | some method =>
            compileWithRamMethod jitConfig vmThread romClass romMethod method optLevel
              mandatoryCodeAddress availableCodeSpace
          | none => [Call.finishCompilation TR_CompilationErrorCode.compilationFailure]

/-- Lines 35-149: the two name reads, the scoped VM access, and the admission
and compilation logic inside that scope. -/
def doAOTCompile (jitConfig : J9JITConfig) (vmThread romClass romMethod : Ptr)
    (ramMethod : Option Ptr) (optLevel : TR_Hotness)
    (mandatoryCodeAddress : Option Ptr) (availableCodeSpace : Nat) : List Call :=
  [Call.readMethodName romMethod, Call.readClassName romClass, Call.acquireVMAccess] ++
    admitAndCompile jitConfig vmThread romClass romMethod ramMethod optLevel
      mandatoryCodeAddress availableCodeSpace ++
    [Call.releaseVMAccess]

/-! ## `J9CompileDispatcher::compile` -/

/-- The tuple `stream->read<uint32_t, uint32_t, J9Method *, TR_Hotness,
uint8_t*, size_t>()` yields (line 155); the two offsets are 32-bit values, which
the casts of lines 160-161 widen without change. -/
structure CompileRequest where
  classOffset : Nat
  methodOffset : Nat
  ramMethod : Option Ptr
  opt : TR_Hotness
  allocPtr : Option Ptr
  allocSize : Nat
  deriving DecidableEq, Repr

/-- The exception `JAAS::StreamFailure`. -/
structure StreamFailure where
  what : String
  deriving DecidableEq, Repr

/-- The server stream as far as `compile` uses it: what its `read` produces. -/
structure J9ServerStream where
  read : Except StreamFailure CompileRequest

/-- The dispatcher object with its two members. -/
structure J9CompileDispatcher where
  _jitConfig : J9JITConfig
  _vmThread : Ptr

/-- Lines 151-174. -/
def J9CompileDispatcher.compile (self : J9CompileDispatcher) (stream : J9ServerStream) :
    List Call :=
  match stream.read with
  | Except.ok req =>
    let romClass := self._jitConfig.pointerFromOffsetInSharedCache req.classOffset
    let romMethod := self._jitConfig.pointerFromOffsetInSharedCache req.methodOffset
    [Call.streamRead,
     Call.pointerFromOffsetInSharedCache req.classOffset,
     Call.pointerFromOffsetInSharedCache req.methodOffset] ++
      doAOTCompile self._jitConfig self._vmThread romClass romMethod req.ramMethod req.opt
        req.allocPtr req.allocSize
  | Except.error _ => [Call.streamRead, Call.cancel]

/-! ## Reads through addresses that cannot be read -/

/-- How a call of the dispatcher ends. Either it returns, with the calls it
made; or a read through an address that cannot be read faults (undefined
behaviour in the source, and no C++ exception, so the `catch` of line 168 does
not apply), with the calls made before that read and the address read. -/
inductive Outcome where
  | returned (run : List Call)
  | accessFault (run : List Call) (address : Ptr)
  deriving DecidableEq, Repr

/-- The calls made in an outcome. -/
def Outcome.calls : Outcome → List Call
  | Outcome.returned run => run
  | Outcome.accessFault run _ => run

/-- Lines 35-149 over an address space in which exactly the addresses accepted
by `readable` can be read. The first two things `doAOTCompile` does are the read
through `romMethod` (line 40) and the read through `romClass` (line 43), neither
behind any test; when both succeed, the run is the one of `doAOTCompile`. -/
def doAOTCompileOrFault (readable : Ptr → Bool) (jitConfig : J9JITConfig)
    (vmThread romClass romMethod : Ptr) (ramMethod : Option Ptr) (optLevel : TR_Hotness)
    (mandatoryCodeAddress : Option Ptr) (availableCodeSpace : Nat) : Outcome :=
  if readable romMethod = false then
    Outcome.accessFault [] romMethod
  else if readable romClass = false then
    Outcome.accessFault [Call.readMethodName romMethod] romClass
  else
    Outcome.returned (doAOTCompile jitConfig vmThread romClass romMethod ramMethod optLevel
      mandatoryCodeAddress availableCodeSpace)

/-- Lines 151-174 over an address space: the two addresses that the offsets
resolve to go to `doAOTCompile` untested (lines 160-166). -/
def J9CompileDispatcher.compileOrFault (readable : Ptr → Bool) (self : J9CompileDispatcher)
    (stream : J9ServerStream) : Outcome :=
  match stream.read with
  | Except.ok req =>
    let romClass := self._jitConfig.pointerFromOffsetInSharedCache req.classOffset
    let romMethod := self._jitConfig.pointerFromOffsetInSharedCache req.methodOffset
    let resolved :=
      [Call.streamRead,
       Call.pointerFromOffsetInSharedCache req.classOffset,
       Call.pointerFromOffsetInSharedCache req.methodOffset]
    match doAOTCompileOrFault readable self._jitConfig self._vmThread romClass romMethod
        req.ramMethod req.opt req.allocPtr req.allocSize with
    | Outcome.returned run => Outcome.returned (resolved ++ run)
    | Outcome.accessFault run address => Outcome.accessFault (resolved ++ run) address
  | Except.error _ => Outcome.returned [Call.streamRead, Call.cancel]

/-! ## Observations on a recorded run -/

/-- The codes of the `finishCompilation` calls, in order. -/
def finishCodes : List Call → List TR_CompilationErrorCode
  | [] => []
  | Call.finishCompilation code :: rest => code :: finishCodes rest
  | _ :: rest => finishCodes rest

/-- The plans passed to `freeOptimizationPlan`, in order. -/
def freedPlans : List Call → List TR_OptimizationPlan
  | [] => []
  | Call.freeOptimizationPlan plan :: rest => plan :: freedPlans rest
  | _ :: rest => freedPlans rest

/-- The `compileRemoteMethod` calls, in order, with their results. -/
def submissions :
    List Call → List (RemoteMethodDetails × TR_OptimizationPlan × Bool × TR_CompilationErrorCode)
  | [] => []
  | Call.compileRemoteMethod details plan queued code :: rest =>
    (details, plan, queued, code) :: submissions rest
  | _ :: rest => submissions rest

/-- The events handed to `processEvent`, in order. -/
def strategyCalls : List Call → List TR_MethodEvent
  | [] => []
  | Call.processEvent event _ _ :: rest => event :: strategyCalls rest
  | _ :: rest => strategyCalls rest

/-- The plans `processEvent` handed back as newly created (non-`NULL` plan with
`newPlanCreated` set), in order. -/
def createdPlans : List Call → List TR_OptimizationPlan
  | [] => []
  | Call.processEvent _ (some plan) true :: rest => plan :: createdPlans rest
  | _ :: rest => createdPlans rest

/-- The offsets passed to `pointerFromOffsetInSharedCache`, in order. -/
def offsetLookups : List Call → List Nat
  | [] => []
  | Call.pointerFromOffsetInSharedCache offset :: rest => offset :: offsetLookups rest
  | _ :: rest => offsetLookups rest

/-- The number of `stream->cancel()` calls. -/
def cancelCount (run : List Call) : Nat :=
  run.count Call.cancel

/-- Modelled from the spec: the compilation thread that finishes a queued request
is outside the sources at hand. By the spec (4.4) and the comment of lines
108-111 ("the compilation thread will do that instead") the engine sends one
signal for each submission that came back with `compilationInProgress`, and
none otherwise. -/
def engineSignals (run : List Call) : Nat :=
  ((submissions run).filter
    (fun s => decide (s.2.2.2 = TR_CompilationErrorCode.compilationInProgress))).length

/-- Every terminal signal of a run: the dispatcher's own `finishCompilation`
calls plus the signals owed by the engine. -/
def terminalSignals (run : List Call) : Nat :=
  (finishCodes run).length + engineSignals run

/-! ## Stub collaborators for concrete runs -/

/-- A plan as a strategy might hand it out: object at address `4096`, no code
buffer set. -/
def samplePlan : TR_OptimizationPlan :=
  { self := 4096, _mandatoryCodeAddress := none, _availableCodeSpace := 0, contents := 7 }

/-- Collaborators with fixed answers: the two admission checks answer `inCache`
and `cached`, the strategy answers `answer`, the engine replies `reply`; offsets
resolve to `1000 + offset` and the method at address `m` has the descriptor
`m + 100`. -/
def stubConfig (inCache cached : Bool) (answer : Option TR_OptimizationPlan × Bool)
    (reply : CompileReply) : J9JITConfig :=
  { pointerFromOffsetInSharedCache := fun offset => 1000 + offset,
    lookupClassLoaderAssociatedWithClassChain := fun _ => none,
    lookupClassFromChainAndLoader := fun _ _ => none,
    ramMethods := fun _ => 0,
    romMethodCount := fun _ => 0,
    J9_ROM_METHOD_FROM_RAM_METHOD := fun m => m + 100,
    isROMClassInSharedCaches := fun _ => inCache,
    existsCachedCodeForROMMethod := fun _ _ => cached,
    processEvent := fun _ => answer,
    compileRemoteMethod := fun _ _ _ _ _ _ => reply }

/-- An engine reply that stores `code` and `queued` through both pointers. -/
def replyWith (queued : Bool) (code : TR_CompilationErrorCode) : CompileReply :=
  { result := 0, compErrCode := some code, queued := some queued }

/-- A dispatcher over the given collaborators, on VM thread `1`. -/
def stubDispatcher (jitConfig : J9JITConfig) : J9CompileDispatcher :=
  { _jitConfig := jitConfig, _vmThread := 1 }

/-- A request for the class at offset `16` and the method at offset `32`, naming
the resident method at address `5`, with no code-buffer hint. -/
def sampleRequest : CompileRequest :=
  { classOffset := 16, methodOffset := 32, ramMethod := some 5, opt := 2,
    allocPtr := none, allocSize := 0 }

/-- A stream whose `read` decodes `sampleRequest`. -/
def goodStream : J9ServerStream :=
  { read := Except.ok sampleRequest }

/-- A stream whose `read` raises `StreamFailure`. -/
def brokenStream : J9ServerStream :=
  { read := Except.error { what := "connection reset" } }

/-- Collaborators for the method locator, on top of `stubConfig` with admission
passing: class chain `70` belongs to loader `7`; chain `50` under loader `7` is
the class `9`, whose method table starts at address `200`; the slots `200` to
`203` have the descriptors `1031, 1032, 1033, 1032` and every other address has
descriptor `0`; the ROM class at `1016` declares `4` methods. -/
def locatorConfig : J9JITConfig :=
  { stubConfig true false (some samplePlan, true)
      (replyWith true TR_CompilationErrorCode.compilationInProgress) with
    lookupClassLoaderAssociatedWithClassChain := fun chain =>
      if chain = 70 then some 7 else none,
    lookupClassFromChainAndLoader := fun chain loader =>
      if chain = 50 ∧ loader = 7 then some 9 else none,
    ramMethods := fun ramClass => if ramClass = 9 then 200 else 0,
    romMethodCount := fun romClass => if romClass = 1016 then 4 else 0,
    J9_ROM_METHOD_FROM_RAM_METHOD := fun method =>
      if method < 200 then 0 else [1031, 1032, 1033, 1032].getD (method - 200) 0 }

/-- The sample request with a code-buffer hint: `64` bytes at address `8192`. -/
def hintedRequest : CompileRequest :=
  { sampleRequest with allocPtr := some 8192, allocSize := 64 }

/-- A stream whose `read` decodes `hintedRequest`. -/
def hintedStream : J9ServerStream :=
  { read := Except.ok hintedRequest }

/-- Collaborators under which the offsets `16` and `32` resolve, to the
addresses `1016` and `1032`, and every other offset yields the null address
`0`. The class-presence check accepts exactly the non-null addresses, no code is
cached, the strategy hands out `samplePlan` as a new plan and the engine queues
the request. -/
def unresolvedOffsetConfig : J9JITConfig :=
  { stubConfig true false (some samplePlan, true)
      (replyWith true TR_CompilationErrorCode.compilationInProgress) with
    pointerFromOffsetInSharedCache := fun offset =>
      if offset = 16 then 1016 else if offset = 32 then 1032 else 0,
    isROMClassInSharedCaches := fun romClass => decide (romClass ≠ 0) }

/-- An address space in which every address but the null address `0` can be
read. -/
def nonNullReadable : Ptr → Bool :=
  fun address => decide (address ≠ 0)

/-- A request whose `classOffset` is `99`, which `unresolvedOffsetConfig` does
not resolve. -/
def unresolvedClassRequest : CompileRequest :=
  { sampleRequest with classOffset := 99 }

/-- A stream whose `read` decodes `unresolvedClassRequest`. -/
def unresolvedClassStream : J9ServerStream :=
  { read := Except.ok unresolvedClassRequest }

/-- A request whose `methodOffset` is `98`, which `unresolvedOffsetConfig` does
not resolve. -/
def unresolvedMethodRequest : CompileRequest :=
  { sampleRequest with methodOffset := 98 }

/-- A stream whose `read` decodes `unresolvedMethodRequest`. -/
def unresolvedMethodStream : J9ServerStream :=
  { read := Except.ok unresolvedMethodRequest }

/-! # Theorems -/

open TR_CompilationErrorCode

/-! ## The observations distribute over concatenation -/

theorem finishCodes_append (a b : List Call) :
    finishCodes (a ++ b) = finishCodes a ++ finishCodes b := by
  induction a with
  | nil => rfl
  | cons c rest ih => cases c <;> simp [finishCodes, ih]

theorem freedPlans_append (a b : List Call) :
    freedPlans (a ++ b) = freedPlans a ++ freedPlans b := by
  induction a with
  | nil => rfl
  | cons c rest ih => cases c <;> simp [freedPlans, ih]

theorem submissions_append (a b : List Call) :
    submissions (a ++ b) = submissions a ++ submissions b := by
  induction a with
  | nil => rfl
  | cons c rest ih => cases c <;> simp [submissions, ih]

theorem createdPlans_append (a b : List Call) :
    createdPlans (a ++ b) = createdPlans a ++ createdPlans b := by
  induction a with
  | nil => rfl
  | cons c rest ih =>
    cases c with
    | processEvent event plan newPlanCreated =>
      cases plan <;> cases newPlanCreated <;> simp [createdPlans, ih]
    | _ => simp [createdPlans, ih]

theorem offsetLookups_append (a b : List Call) :
    offsetLookups (a ++ b) = offsetLookups a ++ offsetLookups b := by
  induction a with
  | nil => rfl
  | cons c rest ih => cases c <;> simp [offsetLookups, ih]

/-! ## What each part of `doAOTCompile` records -/

theorem finishCodes_afterSubmission (plan : TR_OptimizationPlan) (newPlanCreated queued : Bool)
    (code : TR_CompilationErrorCode) :
    finishCodes (afterSubmission plan newPlanCreated queued code) =
      if newPlanCreated = true then
        (if code = compilationInProgress then [] else [code])
      else [compilationFailure] := by
  cases newPlanCreated <;> cases queued <;>
    by_cases h : code = compilationInProgress <;>
    simp [afterSubmission, finishCodes, h]

theorem freedPlans_afterSubmission (plan : TR_OptimizationPlan) (newPlanCreated queued : Bool)
    (code : TR_CompilationErrorCode) :
    freedPlans (afterSubmission plan newPlanCreated queued code) =
      if newPlanCreated = true ∧ queued = false then [plan] else [] := by
  cases newPlanCreated <;> cases queued <;>
    by_cases h : code = compilationInProgress <;>
    simp [afterSubmission, freedPlans, h]

theorem submissions_afterSubmission (plan : TR_OptimizationPlan) (newPlanCreated queued : Bool)
    (code : TR_CompilationErrorCode) :
    submissions (afterSubmission plan newPlanCreated queued code) = [] := by
  cases newPlanCreated <;> cases queued <;>
    by_cases h : code = compilationInProgress <;>
    simp [afterSubmission, submissions, h]

theorem createdPlans_afterSubmission (plan : TR_OptimizationPlan) (newPlanCreated queued : Bool)
    (code : TR_CompilationErrorCode) :
    createdPlans (afterSubmission plan newPlanCreated queued code) = [] := by
  cases newPlanCreated <;> cases queued <;>
    by_cases h : code = compilationInProgress <;>
    simp [afterSubmission, createdPlans, h]

/-! ## The five paths through `doAOTCompile` -/

/-- Path of lines 57-63: the ROM class is not in the shared cache. -/
theorem doAOTCompile_class_not_cached (jitConfig : J9JITConfig)
    (vmThread romClass romMethod : Ptr) (ramMethod : Option Ptr) (optLevel : TR_Hotness)
    (mandatoryCodeAddress : Option Ptr) (availableCodeSpace : Nat)
    (hClass : jitConfig.isROMClassInSharedCaches romClass = false) :
    doAOTCompile jitConfig vmThread romClass romMethod ramMethod optLevel
        mandatoryCodeAddress availableCodeSpace =
      [Call.readMethodName romMethod, Call.readClassName romClass, Call.acquireVMAccess,
       Call.isROMClassInSharedCaches romClass false,
       Call.finishCompilation compilationFailure,
       Call.releaseVMAccess] := by
  simp [doAOTCompile, admitAndCompile, hClass]

/-- Path of lines 66-72: cached code exists for the ROM method. -/
theorem doAOTCompile_cached_code (jitConfig : J9JITConfig)
    (vmThread romClass romMethod : Ptr) (ramMethod : Option Ptr) (optLevel : TR_Hotness)
    (mandatoryCodeAddress : Option Ptr) (availableCodeSpace : Nat)
    (hClass : jitConfig.isROMClassInSharedCaches romClass = true)
    (hCode : jitConfig.existsCachedCodeForROMMethod vmThread romMethod = true) :
    doAOTCompile jitConfig vmThread romClass romMethod ramMethod optLevel
        mandatoryCodeAddress availableCodeSpace =
      [Call.readMethodName romMethod, Call.readClassName romClass, Call.acquireVMAccess,
       Call.isROMClassInSharedCaches romClass true,
       Call.existsCachedCodeForROMMethod romMethod true,
       Call.finishCompilation compilationNotNeeded,
       Call.releaseVMAccess] := by
  simp [doAOTCompile, admitAndCompile, hClass, hCode]

/-- Path of lines 140-146: `ramMethod` is `NULL`. -/
theorem doAOTCompile_no_ramMethod (jitConfig : J9JITConfig)
    (vmThread romClass romMethod : Ptr) (optLevel : TR_Hotness)
    (mandatoryCodeAddress : Option Ptr) (availableCodeSpace : Nat)
    (hClass : jitConfig.isROMClassInSharedCaches romClass = true)
    (hCode : jitConfig.existsCachedCodeForROMMethod vmThread romMethod = false) :
    doAOTCompile jitConfig vmThread romClass romMethod none optLevel
        mandatoryCodeAddress availableCodeSpace =
      [Call.readMethodName romMethod, Call.readClassName romClass, Call.acquireVMAccess,
       Call.isROMClassInSharedCaches romClass true,
       Call.existsCachedCodeForROMMethod romMethod false,
       Call.finishCompilation compilationFailure,
       Call.releaseVMAccess] := by
  simp [doAOTCompile, admitAndCompile, hClass, hCode]

/-- Path of lines 132-138: the strategy returns `NULL`. -/
theorem doAOTCompile_no_plan (jitConfig : J9JITConfig)
    (vmThread romClass romMethod method : Ptr) (optLevel : TR_Hotness)
    (mandatoryCodeAddress : Option Ptr) (availableCodeSpace : Nat)
    (hClass : jitConfig.isROMClassInSharedCaches romClass = true)
    (hCode : jitConfig.existsCachedCodeForROMMethod vmThread romMethod = false)
    (hPlan : (jitConfig.processEvent (remoteRequestEvent vmThread method optLevel)).1 = none) :
    doAOTCompile jitConfig vmThread romClass romMethod (some method) optLevel
        mandatoryCodeAddress availableCodeSpace =
      [Call.readMethodName romMethod, Call.readClassName romClass, Call.acquireVMAccess,
       Call.isROMClassInSharedCaches romClass true,
       Call.existsCachedCodeForROMMethod romMethod false,
       Call.processEvent (remoteRequestEvent vmThread method optLevel) none
         (jitConfig.processEvent (remoteRequestEvent vmThread method optLevel)).2,
       Call.finishCompilation compilationFailure,
       Call.releaseVMAccess] := by
  simp [doAOTCompile, admitAndCompile, compileWithRamMethod, hClass, hCode, hPlan]

/-- Path of lines 92-131: the strategy returns a plan, which is submitted. -/
theorem doAOTCompile_submitted (jitConfig : J9JITConfig)
    (vmThread romClass romMethod method : Ptr) (optLevel : TR_Hotness)
    (mandatoryCodeAddress : Option Ptr) (availableCodeSpace : Nat)
    (plan0 : TR_OptimizationPlan) (newPlanCreated queued : Bool) (code : TR_CompilationErrorCode)
    (hClass : jitConfig.isROMClassInSharedCaches romClass = true)
    (hCode : jitConfig.existsCachedCodeForROMMethod vmThread romMethod = false)
    (hPlan : jitConfig.processEvent (remoteRequestEvent vmThread method optLevel) =
      (some plan0, newPlanCreated))
    (hReply : submitPlan jitConfig vmThread romClass romMethod method
      (applyCodeBufferHint plan0 mandatoryCodeAddress availableCodeSpace) = (queued, code)) :
    doAOTCompile jitConfig vmThread romClass romMethod (some method) optLevel
        mandatoryCodeAddress availableCodeSpace =
      [Call.readMethodName romMethod, Call.readClassName romClass, Call.acquireVMAccess,
       Call.isROMClassInSharedCaches romClass true,
       Call.existsCachedCodeForROMMethod romMethod false,
       Call.processEvent (remoteRequestEvent vmThread method optLevel) (some plan0)
         newPlanCreated,
       Call.compileRemoteMethod ⟨method, romClass, romMethod⟩
         (applyCodeBufferHint plan0 mandatoryCodeAddress availableCodeSpace) queued code] ++
      afterSubmission (applyCodeBufferHint plan0 mandatoryCodeAddress availableCodeSpace)
        newPlanCreated queued code ++
      [Call.releaseVMAccess] := by
  simp [doAOTCompile, admitAndCompile, compileWithRamMethod, hClass, hCode, hPlan, hReply]

/-- Every run of `doAOTCompile` is one of the five paths. -/
theorem doAOTCompile_paths (jitConfig : J9JITConfig)
    (vmThread romClass romMethod : Ptr) (ramMethod : Option Ptr) (optLevel : TR_Hotness)
    (mandatoryCodeAddress : Option Ptr) (availableCodeSpace : Nat) :
    (jitConfig.isROMClassInSharedCaches romClass = false) ∨
    (jitConfig.isROMClassInSharedCaches romClass = true ∧
      jitConfig.existsCachedCodeForROMMethod vmThread romMethod = true) ∨
    (jitConfig.isROMClassInSharedCaches romClass = true ∧
      jitConfig.existsCachedCodeForROMMethod vmThread romMethod = false ∧
      ramMethod = none) ∨
    (jitConfig.isROMClassInSharedCaches romClass = true ∧
      jitConfig.existsCachedCodeForROMMethod vmThread romMethod = false ∧
      ∃ method, ramMethod = some method ∧
        (jitConfig.processEvent (remoteRequestEvent vmThread method optLevel)).1 = none) ∨
    (jitConfig.isROMClassInSharedCaches romClass = true ∧
      jitConfig.existsCachedCodeForROMMethod vmThread romMethod = false ∧
      ∃ method plan0 newPlanCreated queued code, ramMethod = some method ∧
        jitConfig.processEvent (remoteRequestEvent vmThread method optLevel) =
          (some plan0, newPlanCreated) ∧
        submitPlan jitConfig vmThread romClass romMethod method
          (applyCodeBufferHint plan0 mandatoryCodeAddress availableCodeSpace) =
          (queued, code)) := by
  cases hClass : jitConfig.isROMClassInSharedCaches romClass with
  | false => exact Or.inl rfl
  | true =>
    cases hCode : jitConfig.existsCachedCodeForROMMethod vmThread romMethod with
    | true => exact Or.inr (Or.inl ⟨rfl, rfl⟩)
    | false =>
      cases ramMethod with
      | none => exact Or.inr (Or.inr (Or.inl ⟨rfl, rfl, rfl⟩))
      | some method =>
        cases hPlan : (jitConfig.processEvent (remoteRequestEvent vmThread method optLevel)).1 with
        | none => exact Or.inr (Or.inr (Or.inr (Or.inl ⟨rfl, rfl, method, rfl, hPlan⟩)))
        | some plan0 =>
          refine Or.inr (Or.inr (Or.inr (Or.inr ⟨rfl, rfl, method, plan0,
            (jitConfig.processEvent (remoteRequestEvent vmThread method optLevel)).2,
            (submitPlan jitConfig vmThread romClass romMethod method
              (applyCodeBufferHint plan0 mandatoryCodeAddress availableCodeSpace)).1,
            (submitPlan jitConfig vmThread romClass romMethod method
              (applyCodeBufferHint plan0 mandatoryCodeAddress availableCodeSpace)).2,
            rfl, ?_, rfl⟩)))
          rw [← hPlan]

/-- The run of `compile` on a stream whose request decodes. -/
theorem compile_decoded (self : J9CompileDispatcher) (stream : J9ServerStream)
    (req : CompileRequest) (hRead : stream.read = Except.ok req) :
    self.compile stream =
      [Call.streamRead,
       Call.pointerFromOffsetInSharedCache req.classOffset,
       Call.pointerFromOffsetInSharedCache req.methodOffset] ++
      doAOTCompile self._jitConfig self._vmThread
        (self._jitConfig.pointerFromOffsetInSharedCache req.classOffset)
        (self._jitConfig.pointerFromOffsetInSharedCache req.methodOffset)
        req.ramMethod req.opt req.allocPtr req.allocSize := by
  simp [J9CompileDispatcher.compile, hRead]

/-- Signals of a run of `doAOTCompile`: exactly one on every path but one, the
path on which a plan that was not newly created is submitted and comes back
`compilationInProgress`, where there are two. -/
theorem terminalSignals_doAOTCompile (jitConfig : J9JITConfig)
    (vmThread romClass romMethod : Ptr) (ramMethod : Option Ptr) (optLevel : TR_Hotness)
    (mandatoryCodeAddress : Option Ptr) (availableCodeSpace : Nat) :
    terminalSignals (doAOTCompile jitConfig vmThread romClass romMethod ramMethod optLevel
        mandatoryCodeAddress availableCodeSpace) = 1 ∨
    (terminalSignals (doAOTCompile jitConfig vmThread romClass romMethod ramMethod optLevel
        mandatoryCodeAddress availableCodeSpace) = 2 ∧
      ∃ method plan0 queued, ramMethod = some method ∧
        jitConfig.processEvent (remoteRequestEvent vmThread method optLevel) =
          (some plan0, false) ∧
        submitPlan jitConfig vmThread romClass romMethod method
          (applyCodeBufferHint plan0 mandatoryCodeAddress availableCodeSpace) =
          (queued, compilationInProgress)) := by
  rcases doAOTCompile_paths jitConfig vmThread romClass romMethod ramMethod optLevel
      mandatoryCodeAddress availableCodeSpace with
    h | ⟨h1, h2⟩ | ⟨h1, h2, h3⟩ | ⟨h1, h2, method, h3, h4⟩ |
    ⟨h1, h2, method, plan0, newPlanCreated, queued, code, h3, h4, h5⟩
  · left
    rw [doAOTCompile_class_not_cached _ _ _ _ _ _ _ _ h]
    rfl
  · left
    rw [doAOTCompile_cached_code _ _ _ _ _ _ _ _ h1 h2]
    rfl
  · left
    subst h3
    rw [doAOTCompile_no_ramMethod _ _ _ _ _ _ _ h1 h2]
    rfl
  · left
    subst h3
    rw [doAOTCompile_no_plan _ _ _ _ _ _ _ _ h1 h2 h4]
    simp [terminalSignals, engineSignals, finishCodes, submissions]
  · subst h3
    rw [doAOTCompile_submitted _ _ _ _ _ _ _ _ _ _ _ _ h1 h2 h4 h5]
    cases newPlanCreated with
    | true =>
      left
      by_cases hc : code = compilationInProgress <;>
        simp [terminalSignals, engineSignals, finishCodes, submissions, finishCodes_append,
          submissions_append, finishCodes_afterSubmission, submissions_afterSubmission, hc]
    | false =>
      by_cases hc : code = compilationInProgress
      · right
        subst hc
        refine ⟨?_, method, plan0, queued, rfl, h4, h5⟩
        simp [terminalSignals, engineSignals, finishCodes, submissions, finishCodes_append,
          submissions_append, finishCodes_afterSubmission, submissions_afterSubmission]
      · left
        simp [terminalSignals, engineSignals, finishCodes, submissions, finishCodes_append,
          submissions_append, finishCodes_afterSubmission, submissions_afterSubmission, hc]

/-! ## The claims -/

/-- C1 (fails on the code): a decoded request that passes admission, for which
the strategy hands back a plan without `newPlanCreated`, and whose submission
comes back `compilationInProgress`, gets two terminal signals, not one: the
dispatcher's own `finishCompilation(compilationFailure)` of line 129 and the
signal the engine owes for the submission it accepted. -/
theorem C1_two_signals_for_reused_plan_in_progress :
    finishCodes ((stubDispatcher (stubConfig true false (some samplePlan, false)
        (replyWith true compilationInProgress))).compile goodStream) = [compilationFailure] ∧
    engineSignals ((stubDispatcher (stubConfig true false (some samplePlan, false)
        (replyWith true compilationInProgress))).compile goodStream) = 1 ∧
    terminalSignals ((stubDispatcher (stubConfig true false (some samplePlan, false)
        (replyWith true compilationInProgress))).compile goodStream) = 2 := by
  decide

/-- C3 (fails as stated): a decoded request for which cached code exists, but
whose ROM class is not in the shared cache, gets `compilationFailure`, not
`compilationNotNeeded`: the class check of line 57 comes first. -/
theorem C3_cached_code_with_class_absent :
    (stubConfig false true (some samplePlan, true)
        (replyWith true compilationInProgress)).existsCachedCodeForROMMethod 1
      ((stubConfig false true (some samplePlan, true)
        (replyWith true compilationInProgress)).pointerFromOffsetInSharedCache
        sampleRequest.methodOffset) = true ∧
    finishCodes ((stubDispatcher (stubConfig false true (some samplePlan, true)
        (replyWith true compilationInProgress))).compile goodStream) = [compilationFailure] ∧
    finishCodes ((stubDispatcher (stubConfig false true (some samplePlan, true)
        (replyWith true compilationInProgress))).compile goodStream) ≠
      [compilationNotNeeded] := by
  decide

/-- C3 (amended): for every decoded request whose ROM class is in the shared
cache and for whose ROM method cached code exists, `compile` sends exactly the
one signal `compilationNotNeeded`, asks the strategy for nothing, creates no
plan and submits nothing, whatever `ramMethod` and the other request fields
are. -/
theorem C3_cached_code_not_needed (self : J9CompileDispatcher) (stream : J9ServerStream)
    (req : CompileRequest) (hRead : stream.read = Except.ok req)
    (hClass : self._jitConfig.isROMClassInSharedCaches
      (self._jitConfig.pointerFromOffsetInSharedCache req.classOffset) = true)
    (hCode : self._jitConfig.existsCachedCodeForROMMethod self._vmThread
      (self._jitConfig.pointerFromOffsetInSharedCache req.methodOffset) = true) :
    finishCodes (self.compile stream) = [compilationNotNeeded] ∧
    strategyCalls (self.compile stream) = [] ∧
    createdPlans (self.compile stream) = [] ∧
    submissions (self.compile stream) = [] := by
  rw [compile_decoded self stream req hRead,
    doAOTCompile_cached_code _ _ _ _ _ _ _ _ hClass hCode]
  simp [finishCodes, strategyCalls, createdPlans, submissions]

/-- C3 (amended) at a concrete input: class cached, code cached. -/
theorem C3_cached_code_not_needed_witness :
    finishCodes ((stubDispatcher (stubConfig true true (some samplePlan, true)
        (replyWith true compilationInProgress))).compile goodStream) = [compilationNotNeeded] ∧
    strategyCalls ((stubDispatcher (stubConfig true true (some samplePlan, true)
        (replyWith true compilationInProgress))).compile goodStream) = [] ∧
    createdPlans ((stubDispatcher (stubConfig true true (some samplePlan, true)
        (replyWith true compilationInProgress))).compile goodStream) = [] ∧
    submissions ((stubDispatcher (stubConfig true true (some samplePlan, true)
        (replyWith true compilationInProgress))).compile goodStream) = [] :=
  C3_cached_code_not_needed (stubDispatcher (stubConfig true true (some samplePlan, true)
    (replyWith true compilationInProgress))) goodStream sampleRequest rfl rfl rfl

/-- C4 (fails as stated), at two submissions of a newly created plan that do
not come back `compilationInProgress`: when the engine reports the request
queued the plan is not released at all, and when the engine stores a code other
than `compilationFailure` the one signal carries that code. -/
theorem C4_queued_not_released_and_code_passed_through :
    freedPlans (doAOTCompile (stubConfig true false (some samplePlan, true)
        (replyWith true compilationFailure)) 1 1016 1032 (some 5) 2 none 0) = [] ∧
    finishCodes (doAOTCompile (stubConfig true false (some samplePlan, true)
        (replyWith false compilationNotNeeded)) 1 1016 1032 (some 5) 2 none 0) =
      [compilationNotNeeded] ∧
    finishCodes (doAOTCompile (stubConfig true false (some samplePlan, true)
        (replyWith false compilationNotNeeded)) 1 1016 1032 (some 5) 2 none 0) ≠
      [compilationFailure] := by
  decide

/-- C4 (amended): for every request passing admission for which the strategy
newly created a plan, which is then submitted, if the status `code` after the
submission is not `compilationInProgress`, the dispatcher sends exactly one
signal, carrying `code`; it releases the submitted plan exactly once when the
engine did not report the request queued, and not at all when it did. -/
theorem C4_failed_submission (jitConfig : J9JITConfig)
    (vmThread romClass romMethod method : Ptr) (optLevel : TR_Hotness)
    (mandatoryCodeAddress : Option Ptr) (availableCodeSpace : Nat)
    (plan0 : TR_OptimizationPlan) (queued : Bool) (code : TR_CompilationErrorCode)
    (hClass : jitConfig.isROMClassInSharedCaches romClass = true)
    (hCode : jitConfig.existsCachedCodeForROMMethod vmThread romMethod = false)
    (hPlan : jitConfig.processEvent (remoteRequestEvent vmThread method optLevel) =
      (some plan0, true))
    (hReply : submitPlan jitConfig vmThread romClass romMethod method
      (applyCodeBufferHint plan0 mandatoryCodeAddress availableCodeSpace) = (queued, code))
    (hFailed : code ≠ compilationInProgress) :
    finishCodes (doAOTCompile jitConfig vmThread romClass romMethod (some method) optLevel
        mandatoryCodeAddress availableCodeSpace) = [code] ∧
    (queued = false →
      freedPlans (doAOTCompile jitConfig vmThread romClass romMethod (some method) optLevel
        mandatoryCodeAddress availableCodeSpace) =
        [applyCodeBufferHint plan0 mandatoryCodeAddress availableCodeSpace]) ∧
    (queued = true →
      freedPlans (doAOTCompile jitConfig vmThread romClass romMethod (some method) optLevel
        mandatoryCodeAddress availableCodeSpace) = []) := by
  rw [doAOTCompile_submitted _ _ _ _ _ _ _ _ _ _ _ _ hClass hCode hPlan hReply]
  refine ⟨?_, ?_, ?_⟩
  · simp [finishCodes, finishCodes_append, finishCodes_afterSubmission, hFailed]
  · intro hq
    simp [freedPlans, freedPlans_append, freedPlans_afterSubmission, hq, hFailed]
  · intro hq
    simp [freedPlans, freedPlans_append, freedPlans_afterSubmission, hq, hFailed]

/-- C4 (amended) at a concrete input: new plan, not queued, engine leaves
`compilationFailure`. -/
theorem C4_failed_submission_witness :
    finishCodes (doAOTCompile (stubConfig true false (some samplePlan, true)
        (replyWith false compilationFailure)) 1 1016 1032 (some 5) 2 none 0) =
      [compilationFailure] ∧
    freedPlans (doAOTCompile (stubConfig true false (some samplePlan, true)
        (replyWith false compilationFailure)) 1 1016 1032 (some 5) 2 none 0) =
      [samplePlan] :=
  ⟨(C4_failed_submission (stubConfig true false (some samplePlan, true)
      (replyWith false compilationFailure)) 1 1016 1032 5 2 none 0 samplePlan false
      compilationFailure rfl rfl rfl rfl (by decide)).1,
   (C4_failed_submission (stubConfig true false (some samplePlan, true)
      (replyWith false compilationFailure)) 1 1016 1032 5 2 none 0 samplePlan false
      compilationFailure rfl rfl rfl rfl (by decide)).2.1 rfl⟩

/-- C5 (fails as stated), at two admitted requests whose submission comes back
`compilationInProgress`: when the plan was not newly created the dispatcher
still sends one signal (line 129), and when the plan is new but the engine did
not report the request queued the dispatcher releases the plan (line 106). -/
theorem C5_in_progress_yet_signal_or_release :
    finishCodes (doAOTCompile (stubConfig true false (some samplePlan, false)
        (replyWith true compilationInProgress)) 1 1016 1032 (some 5) 2 none 0) =
      [compilationFailure] ∧
    freedPlans (doAOTCompile (stubConfig true false (some samplePlan, true)
        (replyWith false compilationInProgress)) 1 1016 1032 (some 5) 2 none 0) =
      [samplePlan] := by
  decide

/-- C5 (amended): for every request passing admission for which the strategy
newly created a plan, if the status after the submission is
`compilationInProgress`, the dispatcher sends no signal; it does not release
the plan when the engine reported the request queued, and releases it exactly
once when the engine did not. -/
theorem C5_in_progress_new_plan (jitConfig : J9JITConfig)
    (vmThread romClass romMethod method : Ptr) (optLevel : TR_Hotness)
    (mandatoryCodeAddress : Option Ptr) (availableCodeSpace : Nat)
    (plan0 : TR_OptimizationPlan) (queued : Bool)
    (hClass : jitConfig.isROMClassInSharedCaches romClass = true)
    (hCode : jitConfig.existsCachedCodeForROMMethod vmThread romMethod = false)
    (hPlan : jitConfig.processEvent (remoteRequestEvent vmThread method optLevel) =
      (some plan0, true))
    (hReply : submitPlan jitConfig vmThread romClass romMethod method
      (applyCodeBufferHint plan0 mandatoryCodeAddress availableCodeSpace) =
      (queued, compilationInProgress)) :
    finishCodes (doAOTCompile jitConfig vmThread romClass romMethod (some method) optLevel
        mandatoryCodeAddress availableCodeSpace) = [] ∧
    (queued = true →
      freedPlans (doAOTCompile jitConfig vmThread romClass romMethod (some method) optLevel
        mandatoryCodeAddress availableCodeSpace) = []) ∧
    (queued = false →
      freedPlans (doAOTCompile jitConfig vmThread romClass romMethod (some method) optLevel
        mandatoryCodeAddress availableCodeSpace) =
        [applyCodeBufferHint plan0 mandatoryCodeAddress availableCodeSpace]) := by
  rw [doAOTCompile_submitted _ _ _ _ _ _ _ _ _ _ _ _ hClass hCode hPlan hReply]
  refine ⟨?_, ?_, ?_⟩
  · simp [finishCodes, finishCodes_append, finishCodes_afterSubmission]
  · intro hq
    simp [freedPlans, freedPlans_append, freedPlans_afterSubmission, hq]
  · intro hq
    simp [freedPlans, freedPlans_append, freedPlans_afterSubmission, hq]

/-- C5 (amended) at a concrete input: new plan, queued, in progress. -/
theorem C5_in_progress_new_plan_witness :
    finishCodes (doAOTCompile (stubConfig true false (some samplePlan, true)
        (replyWith true compilationInProgress)) 1 1016 1032 (some 5) 2 none 0) = [] ∧
    freedPlans (doAOTCompile (stubConfig true false (some samplePlan, true)
        (replyWith true compilationInProgress)) 1 1016 1032 (some 5) 2 none 0) = [] :=
  ⟨(C5_in_progress_new_plan (stubConfig true false (some samplePlan, true)
      (replyWith true compilationInProgress)) 1 1016 1032 5 2 none 0 samplePlan true
      rfl rfl rfl rfl).1,
   (C5_in_progress_new_plan (stubConfig true false (some samplePlan, true)
      (replyWith true compilationInProgress)) 1 1016 1032 5 2 none 0 samplePlan true
      rfl rfl rfl rfl).2.1 rfl⟩

/-- C6: in every run of `doAOTCompile` in which the strategy handed back a
newly created plan (non-`NULL`, `newPlanCreated` set), that plan, with the
code-buffer hint applied, is submitted exactly once, and what happens to it is
decided by the `queued` flag that `compileRemoteMethod` leaves for this very
submission (`false` when the engine stores none): exactly one of two things
holds. Either the engine did not report the request queued and the dispatcher
freed the plan exactly once, or the engine reported it queued and the
dispatcher freed nothing. -/
theorem C6_new_plan_freed_or_handed_over (jitConfig : J9JITConfig)
    (vmThread romClass romMethod : Ptr) (ramMethod : Option Ptr) (optLevel : TR_Hotness)
    (mandatoryCodeAddress : Option Ptr) (availableCodeSpace : Nat)
    (plan0 : TR_OptimizationPlan)
    (hCreated : plan0 ∈ createdPlans (doAOTCompile jitConfig vmThread romClass romMethod
      ramMethod optLevel mandatoryCodeAddress availableCodeSpace)) :
    ∃ method, ramMethod = some method ∧
      submissions (doAOTCompile jitConfig vmThread romClass romMethod ramMethod optLevel
          mandatoryCodeAddress availableCodeSpace) =
        [(⟨method, romClass, romMethod⟩,
          applyCodeBufferHint plan0 mandatoryCodeAddress availableCodeSpace,
          (jitConfig.compileRemoteMethod vmThread ⟨method, romClass, romMethod⟩ romMethod
            romClass 0
            (applyCodeBufferHint plan0 mandatoryCodeAddress availableCodeSpace)).queued.getD
              false,
          (jitConfig.compileRemoteMethod vmThread ⟨method, romClass, romMethod⟩ romMethod
            romClass 0
            (applyCodeBufferHint plan0 mandatoryCodeAddress availableCodeSpace)).compErrCode.getD
              compilationFailure)] ∧
      (((jitConfig.compileRemoteMethod vmThread ⟨method, romClass, romMethod⟩ romMethod
            romClass 0
            (applyCodeBufferHint plan0 mandatoryCodeAddress availableCodeSpace)).queued.getD
              false = false ∧
          freedPlans (doAOTCompile jitConfig vmThread romClass romMethod ramMethod optLevel
            mandatoryCodeAddress availableCodeSpace) =
            [applyCodeBufferHint plan0 mandatoryCodeAddress availableCodeSpace]) ∨
        ((jitConfig.compileRemoteMethod vmThread ⟨method, romClass, romMethod⟩ romMethod
            romClass 0
            (applyCodeBufferHint plan0 mandatoryCodeAddress availableCodeSpace)).queued.getD
              false = true ∧
          freedPlans (doAOTCompile jitConfig vmThread romClass romMethod ramMethod optLevel
            mandatoryCodeAddress availableCodeSpace) = [])) := by
  rcases doAOTCompile_paths jitConfig vmThread romClass romMethod ramMethod optLevel
      mandatoryCodeAddress availableCodeSpace with
    h | ⟨h1, h2⟩ | ⟨h1, h2, h3⟩ | ⟨h1, h2, method, h3, h4⟩ |
    ⟨h1, h2, method, plan1, newPlanCreated, queued, code, h3, h4, h5⟩
  · rw [doAOTCompile_class_not_cached _ _ _ _ _ _ _ _ h] at hCreated
    simp [createdPlans] at hCreated
  · rw [doAOTCompile_cached_code _ _ _ _ _ _ _ _ h1 h2] at hCreated
    simp [createdPlans] at hCreated
  · subst h3
    rw [doAOTCompile_no_ramMethod _ _ _ _ _ _ _ h1 h2] at hCreated
    simp [createdPlans] at hCreated
  · subst h3
    rw [doAOTCompile_no_plan _ _ _ _ _ _ _ _ h1 h2 h4] at hCreated
    simp [createdPlans] at hCreated
  · subst h3
    rw [doAOTCompile_submitted _ _ _ _ _ _ _ _ _ _ _ _ h1 h2 h4 h5] at hCreated ⊢
    cases newPlanCreated with
    | false =>
      simp [createdPlans, createdPlans_append, createdPlans_afterSubmission] at hCreated
    | true =>
      simp [createdPlans, createdPlans_append, createdPlans_afterSubmission] at hCreated
      subst hCreated
      simp only [submitPlan, Prod.mk.injEq] at h5
      obtain ⟨hQueued, hStatus⟩ := h5
      refine ⟨method, rfl, ?_, ?_⟩
      · rw [hQueued, hStatus]
        simp [submissions, submissions_append, submissions_afterSubmission]
      · rw [hQueued]
        cases queued with
        | false =>
          left
          by_cases hc : code = compilationInProgress <;>
            simp [freedPlans, freedPlans_append, freedPlans_afterSubmission, hc]
        | true =>
          right
          by_cases hc : code = compilationInProgress <;>
            simp [freedPlans, freedPlans_append, freedPlans_afterSubmission, hc]

/-- C6 at two concrete inputs, both with a new plan and the code-buffer hint.
When the engine stores `queued = true` the plan is handed over and the
dispatcher frees nothing; when the engine stores `queued = false` the
dispatcher frees the plan, once. -/
theorem C6_new_plan_freed_or_handed_over_witness :
    freedPlans (doAOTCompile (stubConfig true false (some samplePlan, true)
        (replyWith true compilationInProgress)) 1 1016 1032 (some 5) 2 (some 8192) 64) = [] ∧
    freedPlans (doAOTCompile (stubConfig true false (some samplePlan, true)
        (replyWith false compilationFailure)) 1 1016 1032 (some 5) 2 (some 8192) 64) =
      [applyCodeBufferHint samplePlan (some 8192) 64] := by
  refine ⟨?_, ?_⟩
  · obtain ⟨_, _, _, h | h⟩ := C6_new_plan_freed_or_handed_over
      (stubConfig true false (some samplePlan, true) (replyWith true compilationInProgress))
      1 1016 1032 (some 5) 2 (some 8192) 64 samplePlan (by decide)
    · exact absurd h.1 (by simp [stubConfig, replyWith])
    · exact h.2
  · obtain ⟨_, _, _, h | h⟩ := C6_new_plan_freed_or_handed_over
      (stubConfig true false (some samplePlan, true) (replyWith false compilationFailure))
      1 1016 1032 (some 5) 2 (some 8192) 64 samplePlan (by decide)
    · exact h.2
    · exact absurd h.1 (by simp [stubConfig, replyWith])

/-- C7: for every request passing admission (class cached, no cached code,
`ramMethod` not `NULL`), if `processEvent` returns `NULL`, the dispatcher sends
exactly one `compilationFailure`, submits nothing and frees nothing; the plans
created and the plans released are equally many, namely none. -/
theorem C7_no_plan_failure (jitConfig : J9JITConfig)
    (vmThread romClass romMethod method : Ptr) (optLevel : TR_Hotness)
    (mandatoryCodeAddress : Option Ptr) (availableCodeSpace : Nat)
    (hClass : jitConfig.isROMClassInSharedCaches romClass = true)
    (hCode : jitConfig.existsCachedCodeForROMMethod vmThread romMethod = false)
    (hPlan : (jitConfig.processEvent (remoteRequestEvent vmThread method optLevel)).1 = none) :
    finishCodes (doAOTCompile jitConfig vmThread romClass romMethod (some method) optLevel
        mandatoryCodeAddress availableCodeSpace) = [compilationFailure] ∧
    submissions (doAOTCompile jitConfig vmThread romClass romMethod (some method) optLevel
        mandatoryCodeAddress availableCodeSpace) = [] ∧
    freedPlans (doAOTCompile jitConfig vmThread romClass romMethod (some method) optLevel
        mandatoryCodeAddress availableCodeSpace) = [] ∧
    createdPlans (doAOTCompile jitConfig vmThread romClass romMethod (some method) optLevel
        mandatoryCodeAddress availableCodeSpace) = [] ∧
    (createdPlans (doAOTCompile jitConfig vmThread romClass romMethod (some method) optLevel
        mandatoryCodeAddress availableCodeSpace)).length =
      (freedPlans (doAOTCompile jitConfig vmThread romClass romMethod (some method) optLevel
        mandatoryCodeAddress availableCodeSpace)).length := by
  rw [doAOTCompile_no_plan _ _ _ _ _ _ _ _ hClass hCode hPlan]
  simp [finishCodes, submissions, freedPlans, createdPlans]

/-- C7 at a concrete input: the strategy returns `NULL`. -/
theorem C7_no_plan_failure_witness :
    finishCodes (doAOTCompile (stubConfig true false (none, false)
        (replyWith true compilationInProgress)) 1 1016 1032 (some 5) 2 none 0) =
      [compilationFailure] ∧
    submissions (doAOTCompile (stubConfig true false (none, false)
        (replyWith true compilationInProgress)) 1 1016 1032 (some 5) 2 none 0) = [] :=
  ⟨(C7_no_plan_failure (stubConfig true false (none, false)
      (replyWith true compilationInProgress)) 1 1016 1032 5 2 none 0 rfl rfl rfl).1,
   (C7_no_plan_failure (stubConfig true false (none, false)
      (replyWith true compilationInProgress)) 1 1016 1032 5 2 none 0 rfl rfl rfl).2.1⟩

/-- C8: for every stream whose `read` raises `StreamFailure`, `compile` cancels
the stream exactly once, sends no signal, resolves no offset, runs no admission
check, asks the strategy for nothing, creates no plan and submits nothing. -/
theorem C8_read_failure_cancels (self : J9CompileDispatcher) (stream : J9ServerStream)
    (failure : StreamFailure) (hRead : stream.read = Except.error failure) :
    cancelCount (self.compile stream) = 1 ∧
    finishCodes (self.compile stream) = [] ∧
    offsetLookups (self.compile stream) = [] ∧
    (∀ romClass answer,
      Call.isROMClassInSharedCaches romClass answer ∉ self.compile stream) ∧
    strategyCalls (self.compile stream) = [] ∧
    createdPlans (self.compile stream) = [] ∧
    submissions (self.compile stream) = [] := by
  have hRun : self.compile stream = [Call.streamRead, Call.cancel] := by
    simp [J9CompileDispatcher.compile, hRead]
  rw [hRun]
  simp [cancelCount, finishCodes, offsetLookups, strategyCalls, createdPlans, submissions]

/-- C8 at a concrete input: the broken stream. -/
theorem C8_read_failure_cancels_witness :
    cancelCount ((stubDispatcher (stubConfig true false (some samplePlan, true)
        (replyWith true compilationInProgress))).compile brokenStream) = 1 ∧
    finishCodes ((stubDispatcher (stubConfig true false (some samplePlan, true)
        (replyWith true compilationInProgress))).compile brokenStream) = [] :=
  ⟨(C8_read_failure_cancels (stubDispatcher (stubConfig true false (some samplePlan, true)
      (replyWith true compilationInProgress))) brokenStream ⟨"connection reset"⟩ rfl).1,
   (C8_read_failure_cancels (stubDispatcher (stubConfig true false (some samplePlan, true)
      (replyWith true compilationInProgress))) brokenStream ⟨"connection reset"⟩ rfl).2.1⟩

/-- Every submission of `doAOTCompile` carries the `ramMethod` it was called
with, together with the `romClass` and `romMethod` it was called with. -/
theorem submissions_doAOTCompile_details (jitConfig : J9JITConfig)
    (vmThread romClass romMethod : Ptr) (ramMethod : Option Ptr) (optLevel : TR_Hotness)
    (mandatoryCodeAddress : Option Ptr) (availableCodeSpace : Nat)
    (s : RemoteMethodDetails × TR_OptimizationPlan × Bool × TR_CompilationErrorCode)
    (hs : s ∈ submissions (doAOTCompile jitConfig vmThread romClass romMethod ramMethod
      optLevel mandatoryCodeAddress availableCodeSpace)) :
    ∃ method, ramMethod = some method ∧ s.1 = ⟨method, romClass, romMethod⟩ := by
  rcases doAOTCompile_paths jitConfig vmThread romClass romMethod ramMethod optLevel
      mandatoryCodeAddress availableCodeSpace with
    h | ⟨h1, h2⟩ | ⟨h1, h2, h3⟩ | ⟨h1, h2, method, h3, h4⟩ |
    ⟨h1, h2, method, plan1, newPlanCreated, queued, code, h3, h4, h5⟩
  · rw [doAOTCompile_class_not_cached _ _ _ _ _ _ _ _ h] at hs
    simp [submissions] at hs
  · rw [doAOTCompile_cached_code _ _ _ _ _ _ _ _ h1 h2] at hs
    simp [submissions] at hs
  · subst h3
    rw [doAOTCompile_no_ramMethod _ _ _ _ _ _ _ h1 h2] at hs
    simp [submissions] at hs
  · subst h3
    rw [doAOTCompile_no_plan _ _ _ _ _ _ _ _ h1 h2 h4] at hs
    simp [submissions] at hs
  · subst h3
    rw [doAOTCompile_submitted _ _ _ _ _ _ _ _ _ _ _ _ h1 h2 h4 h5] at hs
    simp [submissions, submissions_append, submissions_afterSubmission] at hs
    exact ⟨method, rfl, by rw [hs]⟩

/-- The loop of `ramMethodFromRomMethod` returns a method exactly when it is the
first slot, from index `i` on and within `remaining` slots, whose descriptor is
the target. -/
theorem scanRamMethods_eq_some_iff (jitConfig : J9JITConfig) (ramMethods romMethod : Ptr)
    (remaining i : Nat) (method : Ptr) :
    scanRamMethods jitConfig ramMethods romMethod i remaining = some method ↔
      ∃ k, k < remaining ∧ method = ramMethods + (i + k) ∧
        jitConfig.J9_ROM_METHOD_FROM_RAM_METHOD (ramMethods + (i + k)) = romMethod ∧
        ∀ j, j < k →
          jitConfig.J9_ROM_METHOD_FROM_RAM_METHOD (ramMethods + (i + j)) ≠ romMethod := by
  induction remaining generalizing i with
  | zero => simp [scanRamMethods]
  | succ n ih =>
    by_cases hHere : jitConfig.J9_ROM_METHOD_FROM_RAM_METHOD (ramMethods + i) = romMethod
    · simp only [scanRamMethods, hHere, if_true, Option.some.injEq]
      constructor
      · intro h
        exact ⟨0, Nat.succ_pos n, by simpa using h.symm, by simpa using hHere,
          fun j hj => absurd hj (Nat.not_lt_zero j)⟩
      · rintro ⟨k, _, hm, _, hBefore⟩
        cases k with
        | zero => simpa using hm.symm
        | succ k => exact absurd (by simpa using hHere) (hBefore 0 (Nat.succ_pos k))
    · simp only [scanRamMethods, hHere, if_false]
      rw [ih (i + 1)]
      constructor
      · rintro ⟨k, hk, hm, hAt, hBefore⟩
        refine ⟨k + 1, Nat.succ_lt_succ hk, ?_, ?_, ?_⟩
        · rw [hm, Nat.add_right_comm i 1 k, Nat.add_assoc i k 1]
        · rwa [show i + (k + 1) = i + 1 + k by omega]
        · intro j hj
          cases j with
          | zero => simpa using hHere
          | succ j =>
            have := hBefore j (Nat.lt_of_succ_lt_succ hj)
            rwa [show i + 1 + j = i + (j + 1) by omega] at this
      · rintro ⟨k, hk, hm, hAt, hBefore⟩
        cases k with
        | zero => exact absurd (by simpa using hAt) hHere
        | succ k =>
          refine ⟨k, Nat.lt_of_succ_lt_succ hk, ?_, ?_, ?_⟩
          · rw [hm, Nat.add_right_comm i 1 k, Nat.add_assoc i k 1]
          · rwa [show i + 1 + k = i + (k + 1) by omega]
          · intro j hj
            have := hBefore (j + 1) (Nat.succ_lt_succ hj)
            rwa [show i + (j + 1) = i + 1 + j by omega] at this

/-- The loop of `ramMethodFromRomMethod` runs out exactly when no slot from
index `i` on and within `remaining` slots has the target descriptor. -/
theorem scanRamMethods_eq_none_iff (jitConfig : J9JITConfig) (ramMethods romMethod : Ptr)
    (remaining i : Nat) :
    scanRamMethods jitConfig ramMethods romMethod i remaining = none ↔
      ∀ k, k < remaining →
        jitConfig.J9_ROM_METHOD_FROM_RAM_METHOD (ramMethods + (i + k)) ≠ romMethod := by
  induction remaining generalizing i with
  | zero => simp [scanRamMethods]
  | succ n ih =>
    by_cases hHere : jitConfig.J9_ROM_METHOD_FROM_RAM_METHOD (ramMethods + i) = romMethod
    · simp only [scanRamMethods, hHere, if_true]
      constructor
      · intro h; cases h
      · intro h
        exact absurd (by simpa using hHere) (h 0 (Nat.succ_pos n))
    · simp only [scanRamMethods, hHere, if_false]
      rw [ih (i + 1)]
      constructor
      · intro h k hk
        cases k with
        | zero => simpa using hHere
        | succ k =>
          have := h k (Nat.lt_of_succ_lt_succ hk)
          rwa [show i + 1 + k = i + (k + 1) by omega] at this
      · intro h k hk
        have := h (k + 1) (Nat.succ_lt_succ hk)
        rwa [show i + (k + 1) = i + 1 + k by omega] at this

/-- C9 (fails as stated): `compile` submits the resident method named in the
request (the third field read from the stream), not one found by resolving the
offsets. Here the request names the method at `5`, whose descriptor is `0`,
while its `methodOffset` resolves to the descriptor `1032`, for which
`ramMethodFromRomMethod` finds the method at `201`; the method at `5` is what
is submitted. -/
theorem C9_submitted_method_is_the_requests :
    (submissions ((stubDispatcher locatorConfig).compile goodStream)).map
        (fun s => s.1) = [⟨5, 1016, 1032⟩] ∧
    locatorConfig.pointerFromOffsetInSharedCache sampleRequest.methodOffset = 1032 ∧
    locatorConfig.J9_ROM_METHOD_FROM_RAM_METHOD 5 ≠ 1032 ∧
    ramMethodFromRomMethod locatorConfig 1016 1032 50 70 = some 201 := by
  decide

/-- C9 (amended): for every decoded request, whatever `compile` submits to the
engine carries the resident method handle read from the request itself,
unchanged, together with the ROM class and the ROM method that the request's
`classOffset` and `methodOffset` resolve to. -/
theorem C9_submission_details (self : J9CompileDispatcher) (stream : J9ServerStream)
    (req : CompileRequest) (hRead : stream.read = Except.ok req)
    (s : RemoteMethodDetails × TR_OptimizationPlan × Bool × TR_CompilationErrorCode)
    (hs : s ∈ submissions (self.compile stream)) :
    ∃ method, req.ramMethod = some method ∧
      s.1 = ⟨method,
        self._jitConfig.pointerFromOffsetInSharedCache req.classOffset,
        self._jitConfig.pointerFromOffsetInSharedCache req.methodOffset⟩ := by
  rw [compile_decoded self stream req hRead] at hs
  simp only [submissions_append, submissions, List.nil_append] at hs
  exact submissions_doAOTCompile_details _ _ _ _ _ _ _ _ s hs

/-- C9 (amended) at a concrete input: the one submission of the sample request
carries the method `5` the request names. -/
theorem C9_submission_details_witness :
    ∃ method, sampleRequest.ramMethod = some method ∧
      (⟨5, 1016, 1032⟩ : RemoteMethodDetails) =
        ⟨method,
          locatorConfig.pointerFromOffsetInSharedCache sampleRequest.classOffset,
          locatorConfig.pointerFromOffsetInSharedCache sampleRequest.methodOffset⟩ :=
  C9_submission_details (stubDispatcher locatorConfig) goodStream sampleRequest rfl
    (⟨5, 1016, 1032⟩, applyCodeBufferHint samplePlan none 0, true, compilationInProgress)
    (by decide)

/-- C10: `ramMethodFromRomMethod` is a first-match linear scan. When the class
loader and the class both resolve, it returns a method exactly when that method
is the slot at the smallest index `i < romMethodCount` whose descriptor is the
target; and it returns `NULL` exactly when the loader lookup fails, or the
class lookup fails, or no slot with index below `romMethodCount` has the target
descriptor. -/
theorem C10_first_match_linear_scan (jitConfig : J9JITConfig)
    (romClass romMethod classChainC classChainCL : Ptr) :
    (∀ CL ramClass,
      jitConfig.lookupClassLoaderAssociatedWithClassChain classChainCL = some CL →
      jitConfig.lookupClassFromChainAndLoader classChainC CL = some ramClass →
      ∀ method,
        ramMethodFromRomMethod jitConfig romClass romMethod classChainC classChainCL =
            some method ↔
          ∃ i, i < jitConfig.romMethodCount romClass ∧
            method = jitConfig.ramMethods ramClass + i ∧
            jitConfig.J9_ROM_METHOD_FROM_RAM_METHOD (jitConfig.ramMethods ramClass + i) =
              romMethod ∧
            ∀ j, j < i →
              jitConfig.J9_ROM_METHOD_FROM_RAM_METHOD (jitConfig.ramMethods ramClass + j) ≠
                romMethod) ∧
    (ramMethodFromRomMethod jitConfig romClass romMethod classChainC classChainCL = none ↔
      jitConfig.lookupClassLoaderAssociatedWithClassChain classChainCL = none ∨
      (∃ CL, jitConfig.lookupClassLoaderAssociatedWithClassChain classChainCL = some CL ∧
        jitConfig.lookupClassFromChainAndLoader classChainC CL = none) ∨
      (∃ CL ramClass,
        jitConfig.lookupClassLoaderAssociatedWithClassChain classChainCL = some CL ∧
        jitConfig.lookupClassFromChainAndLoader classChainC CL = some ramClass ∧
        ∀ i, i < jitConfig.romMethodCount romClass →
          jitConfig.J9_ROM_METHOD_FROM_RAM_METHOD (jitConfig.ramMethods ramClass + i) ≠
            romMethod)) := by
  constructor
  · intro CL ramClass hCL hClass method
    simp only [ramMethodFromRomMethod, hCL, hClass]
    rw [scanRamMethods_eq_some_iff]
    simp only [Nat.zero_add]
  · cases hCL : jitConfig.lookupClassLoaderAssociatedWithClassChain classChainCL with
    | none => simp [ramMethodFromRomMethod, hCL]
    | some CL =>
      cases hClass : jitConfig.lookupClassFromChainAndLoader classChainC CL with
      | none => simp [ramMethodFromRomMethod, hCL, hClass]
      | some ramClass =>
        simp only [ramMethodFromRomMethod, hCL, hClass]
        rw [scanRamMethods_eq_none_iff]
        simp [hClass]

/-- C10 at a concrete input: in a table with descriptors `1031, 1032, 1033,
1032` the scan for `1032` returns the slot at index `1`. -/
theorem C10_first_match_linear_scan_witness :
    ramMethodFromRomMethod locatorConfig 1016 1032 50 70 = some 201 ∧
    ∃ i, i < locatorConfig.romMethodCount 1016 ∧
      201 = locatorConfig.ramMethods 9 + i ∧
      locatorConfig.J9_ROM_METHOD_FROM_RAM_METHOD (locatorConfig.ramMethods 9 + i) = 1032 ∧
      ∀ j, j < i →
        locatorConfig.J9_ROM_METHOD_FROM_RAM_METHOD (locatorConfig.ramMethods 9 + j) ≠ 1032 :=
  ⟨rfl, ((C10_first_match_linear_scan locatorConfig 1016 1032 50 70).1 7 9 rfl rfl 201).mp rfl⟩

/-- The code-buffer hint leaves the address of the plan object and every field
but the two code-buffer fields as they were. -/
theorem applyCodeBufferHint_frame (plan : TR_OptimizationPlan)
    (mandatoryCodeAddress : Option Ptr) (availableCodeSpace : Nat) :
    (applyCodeBufferHint plan mandatoryCodeAddress availableCodeSpace).self = plan.self ∧
    (applyCodeBufferHint plan mandatoryCodeAddress availableCodeSpace).contents =
      plan.contents := by
  cases mandatoryCodeAddress <;> simp [applyCodeBufferHint]

/-- C11: for every decoded request that reaches submission, the plan handed to
`compileRemoteMethod` is the strategy's plan with the hint applied before the
call (the engine's answer is its answer on that plan). When the hint address is
present the plan carries the request's address and size unchanged; when it is
`NULL` the plan is exactly the strategy's plan, whatever the size; in both
cases the plan object and every other field are untouched. -/
theorem C11_code_buffer_hint_passed_through (self : J9CompileDispatcher)
    (stream : J9ServerStream) (req : CompileRequest) (method : Ptr)
    (plan0 : TR_OptimizationPlan) (newPlanCreated : Bool)
    (hRead : stream.read = Except.ok req)
    (hClass : self._jitConfig.isROMClassInSharedCaches
      (self._jitConfig.pointerFromOffsetInSharedCache req.classOffset) = true)
    (hCode : self._jitConfig.existsCachedCodeForROMMethod self._vmThread
      (self._jitConfig.pointerFromOffsetInSharedCache req.methodOffset) = false)
    (hMethod : req.ramMethod = some method)
    (hPlan : self._jitConfig.processEvent
      (remoteRequestEvent self._vmThread method req.opt) = (some plan0, newPlanCreated)) :
    ∃ plan queued code,
      submissions (self.compile stream) =
        [(⟨method, self._jitConfig.pointerFromOffsetInSharedCache req.classOffset,
            self._jitConfig.pointerFromOffsetInSharedCache req.methodOffset⟩,
          plan, queued, code)] ∧
      submitPlan self._jitConfig self._vmThread
          (self._jitConfig.pointerFromOffsetInSharedCache req.classOffset)
          (self._jitConfig.pointerFromOffsetInSharedCache req.methodOffset) method plan =
        (queued, code) ∧
      plan.self = plan0.self ∧
      plan.contents = plan0.contents ∧
      (∀ address, req.allocPtr = some address →
        plan._mandatoryCodeAddress = some address ∧
        plan._availableCodeSpace = req.allocSize) ∧
      (req.allocPtr = none → plan = plan0) := by
  refine ⟨applyCodeBufferHint plan0 req.allocPtr req.allocSize,
    (submitPlan self._jitConfig self._vmThread
      (self._jitConfig.pointerFromOffsetInSharedCache req.classOffset)
      (self._jitConfig.pointerFromOffsetInSharedCache req.methodOffset) method
      (applyCodeBufferHint plan0 req.allocPtr req.allocSize)).1,
    (submitPlan self._jitConfig self._vmThread
      (self._jitConfig.pointerFromOffsetInSharedCache req.classOffset)
      (self._jitConfig.pointerFromOffsetInSharedCache req.methodOffset) method
      (applyCodeBufferHint plan0 req.allocPtr req.allocSize)).2,
    ?_, rfl, (applyCodeBufferHint_frame plan0 req.allocPtr req.allocSize).1,
    (applyCodeBufferHint_frame plan0 req.allocPtr req.allocSize).2, ?_, ?_⟩
  · rw [compile_decoded self stream req hRead, hMethod,
      doAOTCompile_submitted _ _ _ _ _ _ _ _ plan0 newPlanCreated
        (submitPlan self._jitConfig self._vmThread
          (self._jitConfig.pointerFromOffsetInSharedCache req.classOffset)
          (self._jitConfig.pointerFromOffsetInSharedCache req.methodOffset) method
          (applyCodeBufferHint plan0 req.allocPtr req.allocSize)).1
        (submitPlan self._jitConfig self._vmThread
          (self._jitConfig.pointerFromOffsetInSharedCache req.classOffset)
          (self._jitConfig.pointerFromOffsetInSharedCache req.methodOffset) method
          (applyCodeBufferHint plan0 req.allocPtr req.allocSize)).2
        hClass hCode hPlan rfl]
    simp [submissions, submissions_append, submissions_afterSubmission]
  · intro address hHint
    simp [applyCodeBufferHint, hHint]
  · intro hHint
    simp [applyCodeBufferHint, hHint]

/-- C11 at a concrete input: the hinted request, whose submitted plan carries
the address `8192` and the size `64`. -/
theorem C11_code_buffer_hint_passed_through_witness :
    ∃ plan queued code,
      submissions ((stubDispatcher (stubConfig true false (some samplePlan, true)
          (replyWith true compilationInProgress))).compile hintedStream) =
        [(⟨5, 1016, 1032⟩, plan, queued, code)] ∧
      submitPlan (stubConfig true false (some samplePlan, true)
          (replyWith true compilationInProgress)) 1 1016 1032 5 plan = (queued, code) ∧
      plan.self = samplePlan.self ∧
      plan.contents = samplePlan.contents ∧
      (∀ address, hintedRequest.allocPtr = some address →
        plan._mandatoryCodeAddress = some address ∧
        plan._availableCodeSpace = hintedRequest.allocSize) ∧
      (hintedRequest.allocPtr = none → plan = samplePlan) :=
  C11_code_buffer_hint_passed_through (stubDispatcher (stubConfig true false
    (some samplePlan, true) (replyWith true compilationInProgress))) hintedStream
    hintedRequest 5 samplePlan true rfl rfl rfl rfl rfl

/-- When a run splits before a call `x`, and `x` is neither among the calls `a`
nor the call `c` that follows them, `c` lies in the part before `x`. -/
theorem mem_before_of_split (a : List Call) (c : Call) (rest : List Call) (x : Call)
    (hx : x ∉ a) (hxc : x ≠ c) (pre post : List Call)
    (h : a ++ c :: rest = pre ++ x :: post) : c ∈ pre := by
  induction a generalizing pre with
  | nil =>
    cases pre with
    | nil =>
      simp only [List.nil_append, List.cons.injEq] at h
      exact absurd h.1.symm hxc
    | cons p pre' =>
      simp only [List.nil_append, List.cons_append, List.cons.injEq] at h
      rw [h.1]
      exact List.mem_cons_self _ _
  | cons y a' ih =>
    cases pre with
    | nil =>
      simp only [List.nil_append, List.cons_append, List.cons.injEq] at h
      exact absurd (h.1 ▸ List.mem_cons_self _ _) hx
    | cons p pre' =>
      simp only [List.cons_append, List.cons.injEq] at h
      exact List.mem_cons_of_mem _
        (ih (fun hmem => hx (List.mem_cons_of_mem _ hmem)) pre' h.2)

/-- Every run of `doAOTCompile` opens with the two name reads, the VM access
and the class-presence check, in this order. -/
theorem doAOTCompile_opening (jitConfig : J9JITConfig)
    (vmThread romClass romMethod : Ptr) (ramMethod : Option Ptr) (optLevel : TR_Hotness)
    (mandatoryCodeAddress : Option Ptr) (availableCodeSpace : Nat) :
    ∃ rest,
      doAOTCompile jitConfig vmThread romClass romMethod ramMethod optLevel
          mandatoryCodeAddress availableCodeSpace =
        [Call.readMethodName romMethod, Call.readClassName romClass, Call.acquireVMAccess] ++
          Call.isROMClassInSharedCaches romClass
            (jitConfig.isROMClassInSharedCaches romClass) :: rest := by
  cases hClass : jitConfig.isROMClassInSharedCaches romClass with
  | false =>
    exact ⟨_, by simp [doAOTCompile, admitAndCompile, hClass]; rfl⟩
  | true =>
    exact ⟨_, by simp [doAOTCompile, admitAndCompile, hClass]; rfl⟩

/-- The dispatcher's own signals in a run of `doAOTCompile` are at most one. -/
theorem finishCodes_doAOTCompile_length (jitConfig : J9JITConfig)
    (vmThread romClass romMethod : Ptr) (ramMethod : Option Ptr) (optLevel : TR_Hotness)
    (mandatoryCodeAddress : Option Ptr) (availableCodeSpace : Nat) :
    (finishCodes (doAOTCompile jitConfig vmThread romClass romMethod ramMethod optLevel
      mandatoryCodeAddress availableCodeSpace)).length ≤ 1 := by
  rcases doAOTCompile_paths jitConfig vmThread romClass romMethod ramMethod optLevel
      mandatoryCodeAddress availableCodeSpace with
    h | ⟨h1, h2⟩ | ⟨h1, h2, h3⟩ | ⟨h1, h2, method, h3, h4⟩ |
    ⟨h1, h2, method, plan0, newPlanCreated, queued, code, h3, h4, h5⟩
  · rw [doAOTCompile_class_not_cached _ _ _ _ _ _ _ _ h]
    simp [finishCodes]
  · rw [doAOTCompile_cached_code _ _ _ _ _ _ _ _ h1 h2]
    simp [finishCodes]
  · subst h3
    rw [doAOTCompile_no_ramMethod _ _ _ _ _ _ _ h1 h2]
    simp [finishCodes]
  · subst h3
    rw [doAOTCompile_no_plan _ _ _ _ _ _ _ _ h1 h2 h4]
    simp [finishCodes]
  · subst h3
    rw [doAOTCompile_submitted _ _ _ _ _ _ _ _ _ _ _ _ h1 h2 h4 h5]
    cases newPlanCreated <;> by_cases hc : code = compilationInProgress <;>
      simp [finishCodes, finishCodes_append, finishCodes_afterSubmission, hc]

/-- C12: on every run of `compile` (and so of `doAOTCompile`) the dispatcher
calls `finishCompilation` at most once, and wherever it calls it, the
class-presence check `isROMClassInSharedCaches` has been evaluated earlier in
the run. -/
theorem C12_at_most_one_signal_after_class_check (self : J9CompileDispatcher)
    (stream : J9ServerStream) :
    (finishCodes (self.compile stream)).length ≤ 1 ∧
    ∀ pre code post, self.compile stream = pre ++ Call.finishCompilation code :: post →
      ∃ romClass answer, Call.isROMClassInSharedCaches romClass answer ∈ pre := by
  cases hRead : stream.read with
  | error failure =>
    have hRun : self.compile stream = [Call.streamRead, Call.cancel] := by
      simp [J9CompileDispatcher.compile, hRead]
    rw [hRun]
    refine ⟨by simp [finishCodes], ?_⟩
    intro pre code post h
    have hmem : Call.finishCompilation code ∈ [Call.streamRead, Call.cancel] := by
      rw [h]; simp
    simp at hmem
  | ok req =>
    rw [compile_decoded self stream req hRead]
    refine ⟨?_, ?_⟩
    · rw [finishCodes_append]
      have := finishCodes_doAOTCompile_length self._jitConfig self._vmThread
        (self._jitConfig.pointerFromOffsetInSharedCache req.classOffset)
        (self._jitConfig.pointerFromOffsetInSharedCache req.methodOffset)
        req.ramMethod req.opt req.allocPtr req.allocSize
      simpa [finishCodes] using this
    · intro pre code post h
      obtain ⟨rest, hOpen⟩ := doAOTCompile_opening self._jitConfig self._vmThread
        (self._jitConfig.pointerFromOffsetInSharedCache req.classOffset)
        (self._jitConfig.pointerFromOffsetInSharedCache req.methodOffset)
        req.ramMethod req.opt req.allocPtr req.allocSize
      rw [hOpen, ← List.append_assoc] at h
      exact ⟨_, _, mem_before_of_split _ _ rest (Call.finishCompilation code)
        (by simp) (by simp) pre post h⟩

/-- C12 at a concrete input: the run that ends in `compilationNotNeeded`, split
at its one signal; the class-presence check stands before it. -/
theorem C12_at_most_one_signal_after_class_check_witness :
    (finishCodes ((stubDispatcher (stubConfig true true (some samplePlan, true)
        (replyWith true compilationInProgress))).compile goodStream)).length ≤ 1 ∧
    ∃ romClass answer, Call.isROMClassInSharedCaches romClass answer ∈
      [Call.streamRead, Call.pointerFromOffsetInSharedCache 16,
       Call.pointerFromOffsetInSharedCache 32, Call.readMethodName 1032,
       Call.readClassName 1016, Call.acquireVMAccess,
       Call.isROMClassInSharedCaches 1016 true,
       Call.existsCachedCodeForROMMethod 1032 true] :=
  ⟨(C12_at_most_one_signal_after_class_check (stubDispatcher (stubConfig true true
      (some samplePlan, true) (replyWith true compilationInProgress))) goodStream).1,
   (C12_at_most_one_signal_after_class_check (stubDispatcher (stubConfig true true
      (some samplePlan, true) (replyWith true compilationInProgress))) goodStream).2
      [Call.streamRead, Call.pointerFromOffsetInSharedCache 16,
       Call.pointerFromOffsetInSharedCache 32, Call.readMethodName 1032,
       Call.readClassName 1016, Call.acquireVMAccess,
       Call.isROMClassInSharedCaches 1016 true,
       Call.existsCachedCodeForROMMethod 1032 true]
      compilationNotNeeded [Call.releaseVMAccess] rfl⟩

/-- C13 (fails as stated): in a method table where two slots within range (the
indices `1` and `3`) have the target descriptor `1032`, `ramMethodFromRomMethod`
does not return `NULL`; it returns the slot at index `1`. -/
theorem C13_duplicates_return_first_match :
    1 < locatorConfig.romMethodCount 1016 ∧ 3 < locatorConfig.romMethodCount 1016 ∧
    locatorConfig.J9_ROM_METHOD_FROM_RAM_METHOD (locatorConfig.ramMethods 9 + 1) = 1032 ∧
    locatorConfig.J9_ROM_METHOD_FROM_RAM_METHOD (locatorConfig.ramMethods 9 + 3) = 1032 ∧
    ramMethodFromRomMethod locatorConfig 1016 1032 50 70 = some 201 ∧
    ramMethodFromRomMethod locatorConfig 1016 1032 50 70 ≠ none := by
  decide

/-- C13 (amended): when the class loader and the class resolve and two (or
more) slots with index below `romMethodCount` have the target descriptor,
`ramMethodFromRomMethod` returns one of the matching slots, the one with the
smallest index, and not `NULL`. -/
theorem C13_duplicates_first_match (jitConfig : J9JITConfig)
    (romClass romMethod classChainC classChainCL CL ramClass : Ptr) (i j : Nat)
    (hCL : jitConfig.lookupClassLoaderAssociatedWithClassChain classChainCL = some CL)
    (hClass : jitConfig.lookupClassFromChainAndLoader classChainC CL = some ramClass)
    (hij : i < j) (hj : j < jitConfig.romMethodCount romClass)
    (hi : jitConfig.J9_ROM_METHOD_FROM_RAM_METHOD (jitConfig.ramMethods ramClass + i) =
      romMethod)
    (_hjMatch : jitConfig.J9_ROM_METHOD_FROM_RAM_METHOD (jitConfig.ramMethods ramClass + j) =
      romMethod) :
    ∃ k, k ≤ i ∧
      ramMethodFromRomMethod jitConfig romClass romMethod classChainC classChainCL =
        some (jitConfig.ramMethods ramClass + k) ∧
      jitConfig.J9_ROM_METHOD_FROM_RAM_METHOD (jitConfig.ramMethods ramClass + k) =
        romMethod ∧
      ∀ l, l < k →
        jitConfig.J9_ROM_METHOD_FROM_RAM_METHOD (jitConfig.ramMethods ramClass + l) ≠
          romMethod := by
  have hRun : ramMethodFromRomMethod jitConfig romClass romMethod classChainC classChainCL =
      scanRamMethods jitConfig (jitConfig.ramMethods ramClass) romMethod 0
        (jitConfig.romMethodCount romClass) := by
    simp only [ramMethodFromRomMethod, hCL, hClass]
  cases hScan : scanRamMethods jitConfig (jitConfig.ramMethods ramClass) romMethod 0
      (jitConfig.romMethodCount romClass) with
  | none =>
    rw [scanRamMethods_eq_none_iff] at hScan
    have := hScan i (Nat.lt_trans hij hj)
    rw [Nat.zero_add] at this
    exact absurd hi this
  | some method =>
    have hFound := hScan
    rw [scanRamMethods_eq_some_iff] at hScan
    obtain ⟨k, _, hm, hAt, hBefore⟩ := hScan
    simp only [Nat.zero_add] at hm hAt hBefore
    refine ⟨k, ?_, ?_, hAt, hBefore⟩
    · by_contra hlt
      exact hBefore i (Nat.lt_of_not_le hlt) hi
    · rw [hRun, hFound, hm]

/-- C13 (amended) at a concrete input: the table with the descriptor `1032` at
the indices `1` and `3`. -/
theorem C13_duplicates_first_match_witness :
    ∃ k, k ≤ 1 ∧
      ramMethodFromRomMethod locatorConfig 1016 1032 50 70 =
        some (locatorConfig.ramMethods 9 + k) ∧
      locatorConfig.J9_ROM_METHOD_FROM_RAM_METHOD (locatorConfig.ramMethods 9 + k) = 1032 ∧
      ∀ l, l < k →
        locatorConfig.J9_ROM_METHOD_FROM_RAM_METHOD (locatorConfig.ramMethods 9 + l) ≠ 1032 :=
  C13_duplicates_first_match locatorConfig 1016 1032 50 70 7 9 1 3 rfl rfl
    (by decide) (by decide) rfl rfl

/-- Where both addresses that the offsets of a decoded request resolve to can be
read, `compileOrFault` returns with the run of `compile`. -/
theorem compileOrFault_readable (readable : Ptr → Bool) (self : J9CompileDispatcher)
    (stream : J9ServerStream) (req : CompileRequest) (hRead : stream.read = Except.ok req)
    (hClass : readable (self._jitConfig.pointerFromOffsetInSharedCache req.classOffset) = true)
    (hMethod :
      readable (self._jitConfig.pointerFromOffsetInSharedCache req.methodOffset) = true) :
    self.compileOrFault readable stream = Outcome.returned (self.compile stream) := by
  simp [J9CompileDispatcher.compileOrFault, J9CompileDispatcher.compile,
    doAOTCompileOrFault, hRead, hClass, hMethod]

/-- Where one of the two addresses that the offsets of a decoded request resolve
to cannot be read, `compileOrFault` ends in an access fault at an address that
cannot be read, before the class-presence check and before any signal. -/
theorem compileOrFault_unreadable (readable : Ptr → Bool) (self : J9CompileDispatcher)
    (stream : J9ServerStream) (req : CompileRequest) (hRead : stream.read = Except.ok req)
    (hBad :
      readable (self._jitConfig.pointerFromOffsetInSharedCache req.classOffset) = false ∨
      readable (self._jitConfig.pointerFromOffsetInSharedCache req.methodOffset) = false) :
    ∃ run address,
      self.compileOrFault readable stream = Outcome.accessFault run address ∧
      readable address = false ∧
      finishCodes run = [] ∧
      ∀ romClass answer, Call.isROMClassInSharedCaches romClass answer ∉ run := by
  cases hMethod :
      readable (self._jitConfig.pointerFromOffsetInSharedCache req.methodOffset) with
  | false =>
    refine ⟨[Call.streamRead, Call.pointerFromOffsetInSharedCache req.classOffset,
        Call.pointerFromOffsetInSharedCache req.methodOffset],
      self._jitConfig.pointerFromOffsetInSharedCache req.methodOffset, ?_, hMethod, ?_, ?_⟩
    · simp [J9CompileDispatcher.compileOrFault, doAOTCompileOrFault, hRead, hMethod]
    · simp [finishCodes]
    · simp
  | true =>
    have hClass :
        readable (self._jitConfig.pointerFromOffsetInSharedCache req.classOffset) = false := by
      rcases hBad with h | h
      · exact h
      · rw [hMethod] at h; cases h
    refine ⟨[Call.streamRead, Call.pointerFromOffsetInSharedCache req.classOffset,
        Call.pointerFromOffsetInSharedCache req.methodOffset,
        Call.readMethodName (self._jitConfig.pointerFromOffsetInSharedCache req.methodOffset)],
      self._jitConfig.pointerFromOffsetInSharedCache req.classOffset, ?_, hClass, ?_, ?_⟩
    · simp [J9CompileDispatcher.compileOrFault, doAOTCompileOrFault, hRead, hMethod, hClass]
    · simp [finishCodes]
    · simp

/-- C14 (fails on the code): the pointers that the offsets resolve to are never
tested. A decoded request whose `methodOffset` resolves to the null address
faults at the read of line 40, and one whose `classOffset` resolves to the null
address faults at the read of line 43; in both runs the fault comes before the
class-presence check of line 57, which would have turned the null class address
down, and no signal is sent. -/
theorem C14_unresolved_offset_read_faults :
    unresolvedOffsetConfig.pointerFromOffsetInSharedCache
        unresolvedMethodRequest.methodOffset = 0 ∧
    (stubDispatcher unresolvedOffsetConfig).compileOrFault nonNullReadable
        unresolvedMethodStream =
      Outcome.accessFault
        [Call.streamRead, Call.pointerFromOffsetInSharedCache 16,
         Call.pointerFromOffsetInSharedCache 98] 0 ∧
    unresolvedOffsetConfig.pointerFromOffsetInSharedCache
        unresolvedClassRequest.classOffset = 0 ∧
    unresolvedOffsetConfig.isROMClassInSharedCaches 0 = false ∧
    (stubDispatcher unresolvedOffsetConfig).compileOrFault nonNullReadable
        unresolvedClassStream =
      Outcome.accessFault
        [Call.streamRead, Call.pointerFromOffsetInSharedCache 99,
         Call.pointerFromOffsetInSharedCache 32, Call.readMethodName 1032] 0 ∧
    finishCodes ((stubDispatcher unresolvedOffsetConfig).compileOrFault nonNullReadable
        unresolvedMethodStream).calls = [] ∧
    finishCodes ((stubDispatcher unresolvedOffsetConfig).compileOrFault nonNullReadable
        unresolvedClassStream).calls = [] := by
  decide

/-- C15: for every request passing admission for which the strategy returns a
non-`NULL` plan with `newPlanCreated` unset, the dispatcher still submits that
plan (with the code-buffer hint applied) to the engine, frees nothing, and
right after the submission sends exactly one signal, `compilationFailure`,
whatever `queued` and status the engine returned, `compilationInProgress`
included. -/
theorem C15_reused_plan_submitted_then_failure (jitConfig : J9JITConfig)
    (vmThread romClass romMethod method : Ptr) (optLevel : TR_Hotness)
    (mandatoryCodeAddress : Option Ptr) (availableCodeSpace : Nat)
    (plan0 : TR_OptimizationPlan) (queued : Bool) (code : TR_CompilationErrorCode)
    (hClass : jitConfig.isROMClassInSharedCaches romClass = true)
    (hCode : jitConfig.existsCachedCodeForROMMethod vmThread romMethod = false)
    (hPlan : jitConfig.processEvent (remoteRequestEvent vmThread method optLevel) =
      (some plan0, false))
    (hReply : submitPlan jitConfig vmThread romClass romMethod method
      (applyCodeBufferHint plan0 mandatoryCodeAddress availableCodeSpace) = (queued, code)) :
    submissions (doAOTCompile jitConfig vmThread romClass romMethod (some method) optLevel
        mandatoryCodeAddress availableCodeSpace) =
      [(⟨method, romClass, romMethod⟩,
        applyCodeBufferHint plan0 mandatoryCodeAddress availableCodeSpace, queued, code)] ∧
    freedPlans (doAOTCompile jitConfig vmThread romClass romMethod (some method) optLevel
        mandatoryCodeAddress availableCodeSpace) = [] ∧
    finishCodes (doAOTCompile jitConfig vmThread romClass romMethod (some method) optLevel
        mandatoryCodeAddress availableCodeSpace) = [compilationFailure] ∧
    ∃ pre post,
      doAOTCompile jitConfig vmThread romClass romMethod (some method) optLevel
          mandatoryCodeAddress availableCodeSpace =
        pre ++
          Call.compileRemoteMethod ⟨method, romClass, romMethod⟩
            (applyCodeBufferHint plan0 mandatoryCodeAddress availableCodeSpace) queued code ::
          Call.finishCompilation compilationFailure :: post := by
  rw [doAOTCompile_submitted _ _ _ _ _ _ _ _ _ _ _ _ hClass hCode hPlan hReply]
  refine ⟨?_, ?_, ?_, ?_⟩
  · simp [submissions, submissions_append, submissions_afterSubmission]
  · simp [freedPlans, freedPlans_append, freedPlans_afterSubmission]
  · simp [finishCodes, finishCodes_append, finishCodes_afterSubmission]
  · exact ⟨[Call.readMethodName romMethod, Call.readClassName romClass, Call.acquireVMAccess,
        Call.isROMClassInSharedCaches romClass true,
        Call.existsCachedCodeForROMMethod romMethod false,
        Call.processEvent (remoteRequestEvent vmThread method optLevel) (some plan0) false],
      [Call.releaseVMAccess], by simp [afterSubmission]⟩

/-- C15 at a concrete input: a plan that is not new, queued by the engine with
`compilationInProgress`; one submission, no free, one `compilationFailure`. -/
theorem C15_reused_plan_submitted_then_failure_witness :
    submissions (doAOTCompile (stubConfig true false (some samplePlan, false)
        (replyWith true compilationInProgress)) 1 1016 1032 (some 5) 2 none 0) =
      [(⟨5, 1016, 1032⟩, samplePlan, true, compilationInProgress)] ∧
    freedPlans (doAOTCompile (stubConfig true false (some samplePlan, false)
        (replyWith true compilationInProgress)) 1 1016 1032 (some 5) 2 none 0) = [] ∧
    finishCodes (doAOTCompile (stubConfig true false (some samplePlan, false)
        (replyWith true compilationInProgress)) 1 1016 1032 (some 5) 2 none 0) =
      [compilationFailure] :=
  ⟨(C15_reused_plan_submitted_then_failure (stubConfig true false (some samplePlan, false)
      (replyWith true compilationInProgress)) 1 1016 1032 5 2 none 0 samplePlan true
      compilationInProgress rfl rfl rfl rfl).1,
   (C15_reused_plan_submitted_then_failure (stubConfig true false (some samplePlan, false)
      (replyWith true compilationInProgress)) 1 1016 1032 5 2 none 0 samplePlan true
      compilationInProgress rfl rfl rfl rfl).2.1,
   (C15_reused_plan_submitted_then_failure (stubConfig true false (some samplePlan, false)
      (replyWith true compilationInProgress)) 1 1016 1032 5 2 none 0 samplePlan true
      compilationInProgress rfl rfl rfl rfl).2.2.1⟩

/-- C16: for every request passing admission with a newly created plan, let
`reply` be what `compileRemoteMethod` does on the submitted plan and `c` the
status after the call (the stored code, or the initial `compilationFailure`
when the engine stored none). If `c` is not `compilationInProgress`, the one
signal the dispatcher sends carries `c`; `c` is `compilationFailure` exactly
when the engine stored nothing or stored `compilationFailure`; and the plan is
freed exactly when `queued` is unset after the call, whatever `c` is. -/
theorem C16_status_passed_through_free_by_queued (jitConfig : J9JITConfig)
    (vmThread romClass romMethod method : Ptr) (optLevel : TR_Hotness)
    (mandatoryCodeAddress : Option Ptr) (availableCodeSpace : Nat)
    (plan0 : TR_OptimizationPlan) (reply : CompileReply)
    (hClass : jitConfig.isROMClassInSharedCaches romClass = true)
    (hCode : jitConfig.existsCachedCodeForROMMethod vmThread romMethod = false)
    (hPlan : jitConfig.processEvent (remoteRequestEvent vmThread method optLevel) =
      (some plan0, true))
    (hReply : jitConfig.compileRemoteMethod vmThread ⟨method, romClass, romMethod⟩ romMethod
      romClass 0 (applyCodeBufferHint plan0 mandatoryCodeAddress availableCodeSpace) = reply)
    (hStatus : reply.compErrCode.getD compilationFailure ≠ compilationInProgress) :
    finishCodes (doAOTCompile jitConfig vmThread romClass romMethod (some method) optLevel
        mandatoryCodeAddress availableCodeSpace) =
      [reply.compErrCode.getD compilationFailure] ∧
    (reply.compErrCode.getD compilationFailure = compilationFailure ↔
      reply.compErrCode = none ∨ reply.compErrCode = some compilationFailure) ∧
    freedPlans (doAOTCompile jitConfig vmThread romClass romMethod (some method) optLevel
        mandatoryCodeAddress availableCodeSpace) =
      (if reply.queued.getD false = true then []
       else [applyCodeBufferHint plan0 mandatoryCodeAddress availableCodeSpace]) := by
  have hSubmit : submitPlan jitConfig vmThread romClass romMethod method
      (applyCodeBufferHint plan0 mandatoryCodeAddress availableCodeSpace) =
      (reply.queued.getD false, reply.compErrCode.getD compilationFailure) := by
    simp [submitPlan, hReply]
  rw [doAOTCompile_submitted _ _ _ _ _ _ _ _ _ _ _ _ hClass hCode hPlan hSubmit]
  refine ⟨?_, ?_, ?_⟩
  · simp [finishCodes, finishCodes_append, finishCodes_afterSubmission, hStatus]
  · cases hc : reply.compErrCode with
    | none => simp
    | some c => simp
  · cases hq : reply.queued.getD false <;>
      simp [freedPlans, freedPlans_append, freedPlans_afterSubmission, hStatus]

/-- C16 at a concrete input: a new plan, not queued, for which the engine
stores the code `other 3`; the signal carries `other 3` and the plan is
freed. -/
theorem C16_status_passed_through_free_by_queued_witness :
    finishCodes (doAOTCompile (stubConfig true false (some samplePlan, true)
        (replyWith false (other 3))) 1 1016 1032 (some 5) 2 none 0) = [other 3] ∧
    freedPlans (doAOTCompile (stubConfig true false (some samplePlan, true)
        (replyWith false (other 3))) 1 1016 1032 (some 5) 2 none 0) = [samplePlan] :=
  ⟨(C16_status_passed_through_free_by_queued (stubConfig true false (some samplePlan, true)
      (replyWith false (other 3))) 1 1016 1032 5 2 none 0 samplePlan
      (replyWith false (other 3)) rfl rfl rfl rfl (by decide)).1,
   (C16_status_passed_through_free_by_queued (stubConfig true false (some samplePlan, true)
      (replyWith false (other 3))) 1 1016 1032 5 2 none 0 samplePlan
      (replyWith false (other 3)) rfl rfl rfl rfl (by decide)).2.2⟩

end CompileService
